import Mathlib

/-!
Verification development for the hopalong-redux repository
(`src/hopalong.ts` and the gamepad input-mapping module).

Embedding conventions:
* JavaScript numbers are modelled as exact rationals (`ℚ`); the analysed
  claims are about the exact algebraic structure of the computations.
* The host primitives `Math.sqrt` and `Math.pow` are opaque library
  functions, modelled as explicit function parameters `sqrt : ℚ → ℚ` and
  `pow : ℚ → ℚ → ℚ` threaded through the definitions.
* `Math.random()` draws are modelled as explicitly supplied values
  (the `Draws` record below), making the code's use of randomness a
  function of the supplied draw stream.
* The mutable `Hopalong` class instance is modelled as an explicit state
  record (`HState`); each method becomes a state-transition function.
-/

/-! ## Constants (from the top of `hopalong.ts`) -/

def SCALE_FACTOR : ℚ := 1500
def CAMERA_BOUND : ℚ := 200
def LEVEL_DEPTH : ℚ := 600

def A_MIN : ℚ := -30
def A_MAX : ℚ := 30
def B_MIN : ℚ := 1/5
def B_MAX : ℚ := 9/5
def C_MIN : ℚ := 5
def C_MAX : ℚ := 17
def D_MIN : ℚ := 0
def D_MAX : ℚ := 10
def E_MIN : ℚ := 0
def E_MAX : ℚ := 12

def DEFAULT_SPEED : ℚ := 8
def DEFAULT_ROTATION_SPEED : ℚ := 1/200
def DEFAULT_FOV : ℚ := 60
def DEFAULT_POINTS_SUBSET : ℤ := 4000
def DEFAULT_SUBSETS : ℤ := 7
def DEFAULT_LEVELS : ℤ := 7

/-! ## OrbitMath: the two iteration formulas (`hopalong`, `hopalong2`) -/

/-- `Math.sign`: -1 / 0 / 1 by the sign of the argument. -/
def jsign (x : ℚ) : ℚ := if x < 0 then -1 else if 0 < x then 1 else 0

/-- `hopalong(x, y, a, b, c)` from `hopalong.ts`. -/
def hopalong (sqrt : ℚ → ℚ) (x y a b c : ℚ) : ℚ × ℚ :=
  (y - sqrt |b * x - c| * jsign x, a - x)

/-- `hopalong2(x, y, a, b, c)` from `hopalong.ts`. -/
def hopalong2 (sqrt : ℚ → ℚ) (x y a b c : ℚ) : ℚ × ℚ :=
  (y - 1 - sqrt |b * x - 1 - c| * jsign (x - 1), a - x - 1)

/-- The spec's `variant1` formula, written from the spec text
(for comparison against the code's `hopalong`). -/
def variant1 (sqrt : ℚ → ℚ) (x y a b c : ℚ) : ℚ × ℚ :=
  (y - sqrt |b * x - c| * jsign x, a - x)

/-- The spec's `variant2` formula, written from the spec text
(for comparison against the code's `hopalong2`). -/
def variant2 (sqrt : ℚ → ℚ) (x y a b c : ℚ) : ℚ × ℚ :=
  (y - 1 - sqrt |b * x - 1 - c| * jsign (x - 1), a - x - 1)

/-! ## Data model (from `types/hopalong.ts`) -/

structure Vec3 where
  x : ℚ
  y : ℚ
  z : ℚ
deriving DecidableEq

structure SubsetPoint where
  x : ℚ
  y : ℚ
  vertex : Vec3
deriving DecidableEq

structure OrbitParams where
  a : ℚ
  b : ℚ
  c : ℚ
  d : ℚ
  e : ℚ
deriving DecidableEq

structure OrbitData where
  subsets : List (List SubsetPoint)
  xMin : ℚ
  xMax : ℚ
  yMin : ℚ
  yMax : ℚ
  scaleX : ℚ
  scaleY : ℚ
deriving DecidableEq

/-! ## Orbit generation (`initOrbit`, `generateOrbit`) -/

def zeroPoint : SubsetPoint := ⟨0, 0, ⟨0, 0, 0⟩⟩

/-- `initOrbit(numSubsets, numPointsSubset)`: `numSubsets` fresh subsets of
`numPointsSubset` points each, all fields zero. -/
def initSubsets (S N : ℕ) : List (List SubsetPoint) :=
  List.replicate S (List.replicate N zeroPoint)

/-- The running extents tracked during generation. -/
structure Extents where
  xMin : ℚ
  xMax : ℚ
  yMin : ℚ
  yMax : ℚ
deriving DecidableEq

/-- One axis of the strict-comparison extents update:
`if (v < min) min = v; else if (v > max) max = v;`. -/
def updateExtent (v mn mx : ℚ) : ℚ × ℚ :=
  if v < mn then (v, mx) else if v > mx then (mn, v) else (mn, mx)

/-- Per-subset starting coordinate: `s * 0.005 * (0.5 - Math.random())`
with `r` the random draw. -/
def seedVal (s : ℕ) (r : ℚ) : ℚ := (s : ℚ) * (5/1000) * (1/2 - r)

/-- The inner loop of `generateOrbit`: iterate the map once per existing
point of the subset, writing the new raw (x, y) into the point (the
vertex is untouched by this pass) and updating the running extents. -/
def genSubset (sqrt : ℚ → ℚ) (a b c : ℚ) :
    List SubsetPoint → ℚ → ℚ → Extents → List SubsetPoint × Extents
  | [], _, _, e => ([], e)
  | p :: rest, x, y, e =>
    let xy := hopalong sqrt x y a b c
    let ex := updateExtent xy.1 e.xMin e.xMax
    let ey := updateExtent xy.2 e.yMin e.yMax
    let r := genSubset sqrt a b c rest xy.1 xy.2 ⟨ex.1, ex.2, ey.1, ey.2⟩
    (⟨xy.1, xy.2, p.vertex⟩ :: r.1, r.2)

/-- The outer loop of `generateOrbit`'s first pass: over the subsets, with
the subset index `s` feeding the per-subset seeding formula. -/
def genSubsets (sqrt : ℚ → ℚ) (a b c : ℚ) (seedX seedY : ℕ → ℚ) :
    ℕ → List (List SubsetPoint) → Extents → List (List SubsetPoint) × Extents
  | _, [], e => ([], e)
  | s, sub :: rest, e =>
    let r := genSubset sqrt a b c sub (seedVal s (seedX s)) (seedVal s (seedY s)) e
    let r2 := genSubsets sqrt a b c seedX seedY (s + 1) rest r.2
    (r.1 :: r2.1, r2.2)

/-- The second (normalization) pass of `generateOrbit` on one point:
`vertex.setX(scaleX * (x - xMin) - SCALE_FACTOR)` and the same for y;
the z component of the vertex is not written. -/
def normalizePoint (scaleX scaleY xMin yMin : ℚ) (p : SubsetPoint) : SubsetPoint :=
  { p with vertex := { x := scaleX * (p.x - xMin) - SCALE_FACTOR,
                       y := scaleY * (p.y - yMin) - SCALE_FACTOR,
                       z := p.vertex.z } }

/-- `generateOrbit(numSubsets, numPointsSubset)` acting on the orbit data.
The counts are implicit in the shape of `o.subsets` (every call site in the
repository passes the instance fields, which match the shape established by
the preceding `initOrbit`). Local extents start at 0. -/
def generateOrbitData (sqrt : ℚ → ℚ) (p : OrbitParams) (seedX seedY : ℕ → ℚ)
    (o : OrbitData) : OrbitData :=
  let r := genSubsets sqrt p.a p.b p.c seedX seedY 0 o.subsets ⟨0, 0, 0, 0⟩
  let scaleX := 2 * SCALE_FACTOR / (r.2.xMax - r.2.xMin)
  let scaleY := 2 * SCALE_FACTOR / (r.2.yMax - r.2.yMin)
  { subsets := r.1.map (List.map (normalizePoint scaleX scaleY r.2.xMin r.2.yMin)),
    xMin := r.2.xMin, xMax := r.2.xMax, yMin := r.2.yMin, yMax := r.2.yMax,
    scaleX := scaleX, scaleY := scaleY }

/-- `generate(S, N)`: `initOrbit` followed by `generateOrbit`, as in the
constructor and in `setLevelSubsetCount`. -/
def generate (sqrt : ℚ → ℚ) (p : OrbitParams) (seedX seedY : ℕ → ℚ)
    (S N : ℕ) : OrbitData :=
  generateOrbitData sqrt p seedX seedY
    { subsets := initSubsets S N, xMin := 0, xMax := 0, yMin := 0, yMax := 0,
      scaleX := 0, scaleY := 0 }

/-- Raw (pre-normalization) coordinates of a stored point. -/
def rawPoint (pt : SubsetPoint) : ℚ × ℚ := (pt.x, pt.y)

/-- The bare iteration sequence of the map from a starting point
(used to characterize subset deterministic behaviour). -/
def rawIter (sqrt : ℚ → ℚ) (a b c : ℚ) : ℕ → ℚ → ℚ → List (ℚ × ℚ)
  | 0, _, _ => []
  | n + 1, x, y =>
    let xy := hopalong sqrt x y a b c
    xy :: rawIter sqrt a b c n xy.1 xy.2

/-! ## Input mapping (the gamepad module) -/

structure Movement where
  speed : ℚ
  rotationSpeed : ℚ
  x : ℚ
  y : ℚ
deriving DecidableEq

structure Bounds where
  width : ℚ
  height : ℚ
deriving DecidableEq

/-- `clamp(min, target, max = Infinity)`; `none` models the `Infinity`
default, under which `Math.min(target, Infinity) = target`. -/
def clamp (lo target : ℚ) (hi : Option ℚ := none) : ℚ :=
  match hi with
  | some h => max lo (min target h)
  | none => max lo target

/-- `deadzone(stickOffset, deadzone = 0.1)`. -/
def deadzone (stickOffset : ℚ) (dz : ℚ := 1/10) : ℚ :=
  if |stickOffset| < dz then 0 else stickOffset - dz

/-- `exponentiate(stickOffset, base = 2)`; `pow` models `Math.pow`. -/
def exponentiate (pow : ℚ → ℚ → ℚ) (stickOffset : ℚ) (base : ℚ := 2) : ℚ :=
  jsign stickOffset * pow base |stickOffset|

/-- `magnitude(...axes)`; `sqrt` models `Math.sqrt`, `pow` models the
`Math.pow(axis, 2)` in the reducer. -/
def magnitude (sqrt : ℚ → ℚ) (pow : ℚ → ℚ → ℚ) (axes : List ℚ) : ℚ :=
  sqrt (axes.foldl (fun acc axis => acc + pow axis 2) 0)

/-- `signedSqrt(n)`. -/
def signedSqrt (sqrt : ℚ → ℚ) (n : ℚ) : ℚ := sqrt |n| * jsign n

/-- `stdGamepadMovementStrategy`; the gamepad's axes are modelled as a
total function from index to value. -/
def stdGamepadMovementStrategy (sqrt : ℚ → ℚ) (pow : ℚ → ℚ → ℚ)
    (bounds : Bounds) (current : Movement) (axes : ℕ → ℚ) : Movement :=
  let leftStickHorizontal := deadzone (-(axes 0))
  let newRotationSpeed := leftStickHorizontal / 50
  let leftStickVertical := deadzone (-(axes 1))
  let leftStickMagnitude := magnitude sqrt pow [leftStickHorizontal, leftStickVertical]
  let forwardSpeed := clamp 0 (exponentiate pow (leftStickMagnitude * 4) * jsign leftStickVertical)
  let rightStickHorizontal := deadzone (axes 2)
  let transverseSpeedX := signedSqrt sqrt rightStickHorizontal * 10
  let newX := clamp (-(bounds.width / 2)) (transverseSpeedX + current.x) (some (bounds.width / 2))
  let rightStickVertical := deadzone (axes 3)
  let transverseSpeedY := signedSqrt sqrt rightStickVertical * 10
  let newY := clamp (-(bounds.height / 2)) (transverseSpeedY + current.y) (some (bounds.height / 2))
  { speed := forwardSpeed, rotationSpeed := newRotationSpeed, x := newX, y := newY }

/-! ## The `Hopalong` class state -/

structure PSetR where
  id : ℕ
  myLevel : ℕ
  mySubset : ℕ
  needsUpdate : Bool
  posZ : ℚ
  rotZ : ℚ
  geometry : List Vec3
  colorHue : ℚ
deriving DecidableEq

/-- Identity-relevant projection of a particle set: indices and id. -/
def rec3 (ps : PSetR) : ℕ × ℕ × ℕ := (ps.myLevel, ps.mySubset, ps.id)

/-- Index projection of a particle set. -/
def pairOf (ps : PSetR) : ℕ × ℕ := (ps.myLevel, ps.mySubset)

/-- Everything observable about a particle set except its dirty flag:
identity, indices, transform, displayed geometry and color. -/
def stripPS (ps : PSetR) : ℕ × ℕ × ℕ × ℚ × ℚ × List Vec3 × ℚ :=
  (ps.id, ps.myLevel, ps.mySubset, ps.posZ, ps.rotZ, ps.geometry, ps.colorHue)

structure SimSettingsR where
  speed : ℚ
  rotationSpeed : ℚ
  mouseLocked : Bool
  cameraFov : ℚ
  levelCount : ℤ
  subsetCount : ℤ
  pointsPerSubset : ℤ
deriving DecidableEq

/-- The mutable instance state of the `Hopalong` class. Counts are `ℤ`
(JS numbers; negative and zero values are representable and relevant to
the `||`-default semantics). The three.js scene is modelled by the list
of particle-set ids currently added to it; `nextId` is a creation
counter giving each particle set a stable identity. The settings-change
callback is modelled by recording each fired settings snapshot. -/
structure HState where
  orbitParams : OrbitParams
  orbit : OrbitData
  hueValues : List ℚ
  mouseX : ℚ
  mouseY : ℚ
  mouseLocked : Bool
  windowHalfX : ℚ
  windowHalfY : ℚ
  speed : ℚ
  rotationSpeed : ℚ
  numPointsSubset : ℤ
  numSubsets : ℤ
  numLevels : ℤ
  cameraX : ℚ
  cameraY : ℚ
  cameraZ : ℚ
  cameraFov : ℚ
  particleSets : List PSetR
  sceneIds : List ℕ
  nextId : ℕ
  firedSettings : List SimSettingsR
deriving DecidableEq

/-- The `Math.random()` draws consumed by one orbit/hue regeneration. -/
structure Draws where
  ra : ℚ
  rb : ℚ
  rc : ℚ
  rd : ℚ
  re : ℚ
  choice : ℚ
  seedX : ℕ → ℚ
  seedY : ℕ → ℚ
  hue : ℕ → ℚ

/-- `shuffleParams()`: fresh parameters from the fixed ranges. -/
def shuffledParams (d : Draws) : OrbitParams :=
  { a := A_MIN + d.ra * (A_MAX - A_MIN),
    b := B_MIN + d.rb * (B_MAX - B_MIN),
    c := C_MIN + d.rc * (C_MAX - C_MIN),
    d := D_MIN + d.rd * (D_MAX - D_MIN),
    e := E_MIN + d.re * (E_MAX - E_MIN) }

/-- `getSettings()`. -/
def getSettings (st : HState) : SimSettingsR :=
  { speed := st.speed, rotationSpeed := st.rotationSpeed,
    mouseLocked := st.mouseLocked, cameraFov := st.cameraFov,
    levelCount := st.numLevels, subsetCount := st.numSubsets,
    pointsPerSubset := st.numPointsSubset }

/-- `fireSettingsChange()`: invoke the settings-change callback with the
current effective settings. -/
def fireSettingsChange (st : HState) : HState :=
  { st with firedSettings := st.firedSettings ++ [getSettings st] }

/-- `initOrbit(this.numSubsets, this.numPointsSubset)` (all call sites
pass the instance fields). Only `orbit.subsets` is replaced. -/
def initOrbitS (st : HState) : HState :=
  { st with orbit :=
      { st.orbit with subsets := initSubsets st.numSubsets.toNat st.numPointsSubset.toNat } }

/-- `prepareOrbit`/`shuffleParams` plus the body of `generateOrbit`,
acting on the instance state. -/
def generateOrbitState (sqrt : ℚ → ℚ) (d : Draws) (st : HState) : HState :=
  let p := shuffledParams d
  { st with orbitParams := p,
            orbit := generateOrbitData sqrt p d.seedX d.seedY st.orbit }

/-- `generateHues(numSubsets)`. -/
def generateHues (d : Draws) (numSubsets : ℤ) : List ℚ :=
  (List.range numSubsets.toNat).map d.hue

/-- `updateOrbit()`: regenerate the orbit and hues, then set every
tracked particle set's dirty flag. -/
def updateOrbit (sqrt : ℚ → ℚ) (d : Draws) (st : HState) : HState :=
  let st1 := generateOrbitState sqrt d st
  let st2 := { st1 with hueValues := generateHues d st1.numSubsets }
  { st2 with particleSets := st2.particleSets.map (fun ps => { ps with needsUpdate := true }) }

/-- `generateParticleSet(level, subset)`: build a drawable from the
current orbit subset and hue, place it by level/subset depth, add it to
the scene and track it. -/
def generateParticleSet (level subset : ℕ) (st : HState) : HState :=
  let vertices := (st.orbit.subsets.getD subset []).map (fun p => p.vertex)
  let ps : PSetR :=
    { id := st.nextId, myLevel := level, mySubset := subset, needsUpdate := false,
      posZ := -LEVEL_DEPTH * (level : ℚ) - ((subset : ℚ) * LEVEL_DEPTH) / (st.numSubsets : ℚ)
              + SCALE_FACTOR / 2,
      rotZ := 0, geometry := vertices, colorHue := st.hueValues.getD subset 0 }
  { st with particleSets := st.particleSets ++ [ps],
            sceneIds := st.sceneIds ++ [st.nextId],
            nextId := st.nextId + 1 }

/-! ## `setLevelSubsetCount` and friends -/

/-- JS `value || old` on numbers: `0` (and absent) is falsy and keeps the
old value; any other number (negatives included) replaces it. -/
def jsOrInt (v : Option ℤ) (old : ℤ) : ℤ :=
  match v with
  | none => old
  | some n => if n = 0 then old else n

/-- The keep condition of the reconciliation filter:
`myLevel < this.numLevels && mySubset < this.numSubsets`. -/
def keepPS (numLevels numSubsets : ℤ) (ps : PSetR) : Bool :=
  decide ((ps.myLevel : ℤ) < numLevels ∧ (ps.mySubset : ℤ) < numSubsets)

/-- The (level, subset) grid traversed by the creation loops, in loop
order (level-major). -/
def allPairs (L S : ℕ) : List (ℕ × ℕ) :=
  (List.range L).flatMap (fun k => (List.range S).map (fun s => (k, s)))

/-- The creation loop: for each (level, subset) pair not in the `exists`
key set, `generateParticleSet(level, subset)`. -/
def createMissing (ex : List (ℕ × ℕ)) (pairs : List (ℕ × ℕ)) (st : HState) : HState :=
  pairs.foldl (fun acc pr => if pr ∈ ex then acc else generateParticleSet pr.1 pr.2 acc) st

/-- First phase of `setLevelSubsetCount`: the `||`-defaulted assignment
of the three counts. -/
def applyCounts (levelCount pointsPerSubset subsetCount : Option ℤ) (st : HState) : HState :=
  { st with numLevels := jsOrInt levelCount st.numLevels,
            numSubsets := jsOrInt subsetCount st.numSubsets,
            numPointsSubset := jsOrInt pointsPerSubset st.numPointsSubset }

/-- Second phase: `if (subsetCount !== undefined || pointsPerSubset !==
undefined) { initOrbit(...); updateOrbit(); }`. -/
def regenIfNeeded (sqrt : ℚ → ℚ) (d : Draws) (pointsPerSubset subsetCount : Option ℤ)
    (st : HState) : HState :=
  if subsetCount.isSome || pointsPerSubset.isSome then updateOrbit sqrt d (initOrbitS st)
  else st

/-- Third phase: the filter that drops particle sets whose indices fell
out of range, removing their drawables from the scene. -/
def removeStale (st : HState) : HState :=
  let removedIds :=
    (st.particleSets.filter (fun ps => !(keepPS st.numLevels st.numSubsets ps))).map
      (fun ps => ps.id)
  { st with particleSets := st.particleSets.filter (keepPS st.numLevels st.numSubsets),
            sceneIds := st.sceneIds.filter (fun i => decide (i ∉ removedIds)) }

/-- Fourth phase: create a particle set for every in-range (level, subset)
pair not already tracked (the `exists` set holds the keys that survived
the filter). -/
def createNeeded (st : HState) : HState :=
  createMissing (st.particleSets.map pairOf)
    (allPairs st.numLevels.toNat st.numSubsets.toNat) st

/-- `setLevelSubsetCount(partialSettings)`. -/
def setLevelSubsetCount (sqrt : ℚ → ℚ) (d : Draws)
    (levelCount pointsPerSubset subsetCount : Option ℤ) (st : HState) : HState :=
  fireSettingsChange
    (createNeeded
      (removeStale
        (regenIfNeeded sqrt d pointsPerSubset subsetCount
          (applyCounts levelCount pointsPerSubset subsetCount st))))

/-- `changeLevelSubset(delta)`. -/
def changeLevelSubset (sqrt : ℚ → ℚ) (d : Draws) (delta : ℤ) (st : HState) : HState :=
  setLevelSubsetCount sqrt d (some (st.numLevels + delta)) none (some (st.numSubsets + delta)) st

/-- `setCameraFOV(fov)` (`updateProjectionMatrix` has no observable
state in this model). -/
def setCameraFOV (fov : ℚ) (st : HState) : HState :=
  fireSettingsChange { st with cameraFov := fov }

/-- `applySettings(settings)`: fields present in the partial settings
object (modelled as `some`) are applied via `typeof !== 'undefined'`
checks; the three counts are delegated to `setLevelSubsetCount` when any
of them is present. -/
def applySettings (sqrt : ℚ → ℚ) (d : Draws)
    (speed rotationSpeed : Option ℚ) (mouseLocked : Option Bool) (cameraFov : Option ℚ)
    (levelCount subsetCount pointsPerSubset : Option ℤ) (st : HState) : HState :=
  let st1 := match speed with | some v => { st with speed := v } | none => st
  let st2 := match rotationSpeed with | some v => { st1 with rotationSpeed := v } | none => st1
  let st3 := match mouseLocked with | some v => { st2 with mouseLocked := v } | none => st2
  let st4 := match cameraFov with | some v => setCameraFOV v st3 | none => st3
  if levelCount.isSome || subsetCount.isSome || pointsPerSubset.isSome then
    setLevelSubsetCount sqrt d levelCount pointsPerSubset subsetCount st4
  else st4

/-! ## Mouse, touch and camera -/

/-- `setMouseLock(locked?)`: toggle when absent, assign when present,
then fire the settings-change callback. -/
def setMouseLock (locked : Option Bool) (st : HState) : HState :=
  let st1 :=
    match locked with
    | none => { st with mouseLocked := !st.mouseLocked }
    | some b => { st with mouseLocked := b }
  fireSettingsChange st1

/-- `recenterCamera()`. -/
def recenterCamera (st : HState) : HState :=
  setMouseLock (some true)
    { st with cameraX := 0, cameraY := 0, mouseX := 0, mouseY := 0 }

/-- `onDocumentMouseMove(event)` with the event's client coordinates. -/
def onDocumentMouseMove (clientX clientY : ℚ) (st : HState) : HState :=
  if st.mouseLocked then st
  else { st with mouseX := clientX - st.windowHalfX, mouseY := clientY - st.windowHalfY }

/-- `onDocumentTouchStart(event)`; the touch list is modelled as the
list of (pageX, pageY) pairs. -/
def onDocumentTouchStart (touches : List (ℚ × ℚ)) (st : HState) : HState :=
  if st.mouseLocked then st
  else
    match touches with
    | [t] => { st with mouseX := t.1 - st.windowHalfX, mouseY := t.2 - st.windowHalfY }
    | _ => st

/-- `onDocumentTouchMove(event)` (same body as touch start). -/
def onDocumentTouchMove (touches : List (ℚ × ℚ)) (st : HState) : HState :=
  if st.mouseLocked then st
  else
    match touches with
    | [t] => { st with mouseX := t.1 - st.windowHalfX, mouseY := t.2 - st.windowHalfY }
    | _ => st

/-! ## The per-frame step (`render`) -/

/-- The camera-easing block of `render` for one axis: ease toward the
target only while inside the bound, then clamp. -/
def easeAxis (target pos : ℚ) : ℚ :=
  if -CAMERA_BOUND ≤ pos ∧ pos ≤ CAMERA_BOUND then
    let p1 := pos + (target - pos) * (5/100)
    let p2 := if p1 < -CAMERA_BOUND then -CAMERA_BOUND else p1
    if p2 > CAMERA_BOUND then CAMERA_BOUND else p2
  else pos

/-- The per-particle-set body of `render`'s update loop. -/
def stepParticle (speed rotationSpeed cameraZ : ℚ) (numLevels : ℤ)
    (subsets : List (List SubsetPoint)) (hues : List ℚ) (ps : PSetR) : PSetR :=
  let z := ps.posZ + speed
  let rot := ps.rotZ + rotationSpeed
  if z > cameraZ then
    let ps1 := { ps with posZ := -((numLevels : ℚ) - 1) * LEVEL_DEPTH, rotZ := rot }
    if ps.needsUpdate then
      { ps1 with geometry := (subsets.getD ps.mySubset []).map (fun p => p.vertex),
                 colorHue := hues.getD ps.mySubset 0,
                 needsUpdate := false }
    else ps1
  else { ps with posZ := z, rotZ := rot }

/-- `render()` (minus the final draw call, which has no model state). -/
def render (st : HState) : HState :=
  { st with
    cameraX := easeAxis st.mouseX st.cameraX,
    cameraY := easeAxis (-st.mouseY) st.cameraY,
    particleSets := st.particleSets.map
      (stepParticle st.speed st.rotationSpeed st.cameraZ st.numLevels
        st.orbit.subsets st.hueValues) }

/-! ## The constructor with default settings -/

def emptyOrbit : OrbitData := ⟨[], 0, 0, 0, 0, 0, 0⟩

/-- The state built by the constructor when given an empty settings
object: defaults applied, `initOrbit`, then `init`'s `generateOrbit`,
`generateHues` and the 7 × 7 particle-set creation loops, then the
constructor's final `fireSettingsChange`. -/
def defaultState (sqrt : ℚ → ℚ) (d : Draws) : HState :=
  let st0 : HState :=
    { orbitParams := ⟨0, 0, 0, 0, 0⟩, orbit := emptyOrbit, hueValues := [],
      mouseX := 0, mouseY := 0, mouseLocked := false,
      windowHalfX := 0, windowHalfY := 0,
      speed := DEFAULT_SPEED, rotationSpeed := DEFAULT_ROTATION_SPEED,
      numPointsSubset := DEFAULT_POINTS_SUBSET, numSubsets := DEFAULT_SUBSETS,
      numLevels := DEFAULT_LEVELS,
      cameraX := 0, cameraY := 0, cameraZ := SCALE_FACTOR / 2, cameraFov := DEFAULT_FOV,
      particleSets := [], sceneIds := [], nextId := 0, firedSettings := [] }
  let st1 := generateOrbitState sqrt d (initOrbitS st0)
  let st2 := { st1 with hueValues := generateHues d st1.numSubsets }
  let st3 := createMissing [] (allPairs 7 7) st2
  fireSettingsChange st3

/-! ## Projections and helper values -/

/-- A trivial model of `Math.sqrt` used for concrete witnesses. -/
def sqrtZero : ℚ → ℚ := fun _ => 0

/-- A trivial model of `Math.pow` used for concrete witnesses. -/
def powZero : ℚ → ℚ → ℚ := fun _ _ => 0

/-- All-zero random draws, for concrete witnesses. -/
def drawsZero : Draws :=
  ⟨0, 0, 0, 0, 0, 0, fun _ => 0, fun _ => 0, fun _ => 0⟩

/-! ## Generic list helpers -/

theorem listFilterMap {α β : Type} (f : α → β) (p : β → Bool) :
    ∀ l : List α, (l.filter (fun a => p (f a))).map f = (l.map f).filter p := by
  intro l
  induction l with
  | nil => rfl
  | cons a rest ih =>
    by_cases hp : p (f a) = true
    · simp [List.filter_cons, hp, ih]
    · simp only [Bool.not_eq_true] at hp
      simp [List.filter_cons, hp, ih]

/-! ## Basic facts about the creation loop -/

/-- The particle set built by `generateParticleSet` from state `st`,
pair `pr` and creation counter `n`. -/
def newPS1 (st : HState) (pr : ℕ × ℕ) (n : ℕ) : PSetR :=
  { id := n, myLevel := pr.1, mySubset := pr.2, needsUpdate := false,
    posZ := -LEVEL_DEPTH * (pr.1 : ℚ) - ((pr.2 : ℚ) * LEVEL_DEPTH) / (st.numSubsets : ℚ)
            + SCALE_FACTOR / 2,
    rotZ := 0,
    geometry := (st.orbit.subsets.getD pr.2 []).map (fun p => p.vertex),
    colorHue := st.hueValues.getD pr.2 0 }

/-- The run of particle sets created by a sequence of
`generateParticleSet` calls starting at creation counter `n`. -/
def newParticleSets (st : HState) : List (ℕ × ℕ) → ℕ → List PSetR
  | [], _ => []
  | pr :: rest, n => newPS1 st pr n :: newParticleSets st rest (n + 1)

theorem generateParticleSet_eq (k s : ℕ) (st : HState) :
    generateParticleSet k s st =
      { st with particleSets := st.particleSets ++ [newPS1 st (k, s) st.nextId],
                sceneIds := st.sceneIds ++ [st.nextId],
                nextId := st.nextId + 1 } := rfl

theorem newParticleSets_congr (st1 st2 : HState) (h1 : st1.orbit = st2.orbit)
    (h2 : st1.hueValues = st2.hueValues) (h3 : st1.numSubsets = st2.numSubsets) :
    ∀ (prs : List (ℕ × ℕ)) (n : ℕ), newParticleSets st1 prs n = newParticleSets st2 prs n := by
  intro prs
  induction prs with
  | nil => intro n; rfl
  | cons pr rest ih =>
    intro n
    simp only [newParticleSets, ih, newPS1, h1, h2, h3]

theorem createMissing_cons (ex : List (ℕ × ℕ)) (p : ℕ × ℕ) (rest : List (ℕ × ℕ))
    (st : HState) :
    createMissing ex (p :: rest) st =
      createMissing ex rest (if p ∈ ex then st else generateParticleSet p.1 p.2 st) := rfl

theorem createMissing_eq (ex : List (ℕ × ℕ)) :
    ∀ (pairs : List (ℕ × ℕ)) (st : HState),
    createMissing ex pairs st =
      { st with
        particleSets := st.particleSets ++
          newParticleSets st (pairs.filter (fun pr => decide (pr ∉ ex))) st.nextId,
        sceneIds := st.sceneIds ++
          List.range' st.nextId (pairs.filter (fun pr => decide (pr ∉ ex))).length,
        nextId := st.nextId + (pairs.filter (fun pr => decide (pr ∉ ex))).length } := by
  intro pairs
  induction pairs with
  | nil => intro st; simp [createMissing, newParticleSets]
  | cons p rest ih =>
    intro st
    rw [createMissing_cons]
    by_cases hp : p ∈ ex
    · rw [if_pos hp, ih]
      have hfil : (p :: rest).filter (fun pr => decide (pr ∉ ex)) =
          rest.filter (fun pr => decide (pr ∉ ex)) := by
        simp [List.filter_cons, hp]
      rw [hfil]
    · rw [if_neg hp, ih, generateParticleSet_eq]
      have hfil : (p :: rest).filter (fun pr => decide (pr ∉ ex)) =
          p :: rest.filter (fun pr => decide (pr ∉ ex)) := by
        simp [List.filter_cons, hp]
      rw [hfil]
      have hcongr := newParticleSets_congr
        { st with particleSets := st.particleSets ++ [newPS1 st (p.1, p.2) st.nextId],
                  sceneIds := st.sceneIds ++ [st.nextId], nextId := st.nextId + 1 }
        st rfl rfl rfl (rest.filter (fun pr => decide (pr ∉ ex))) (st.nextId + 1)
      simp only [hcongr, HState.mk.injEq, true_and, and_true]
      refine ⟨?_, ?_, ?_⟩
      · simp [newParticleSets, List.append_assoc]
      · rw [List.length_cons, List.range'_succ]
        simp [List.append_assoc]
      · rw [List.length_cons]
        omega

theorem setLSC_counts (sqrt : ℚ → ℚ) (d : Draws) (lc pp sc : Option ℤ) (st : HState) :
    (setLevelSubsetCount sqrt d lc pp sc st).numLevels = jsOrInt lc st.numLevels ∧
    (setLevelSubsetCount sqrt d lc pp sc st).numSubsets = jsOrInt sc st.numSubsets ∧
    (setLevelSubsetCount sqrt d lc pp sc st).numPointsSubset = jsOrInt pp st.numPointsSubset := by
  unfold setLevelSubsetCount fireSettingsChange createNeeded
  rw [createMissing_eq]
  unfold removeStale regenIfNeeded
  split <;> simp [updateOrbit, generateOrbitState, initOrbitS, applyCounts]

/-- C4: the two iteration functions compute exactly the spec's formulas,
`sign(0) = 0`, and the functions are pure: equal argument tuples give
equal results. -/
theorem claimC4 (sqrt : ℚ → ℚ) (x y a b c x2 y2 a2 b2 c2 : ℚ)
    (h : (x, y, a, b, c) = (x2, y2, a2, b2, c2)) :
    hopalong sqrt x y a b c = variant1 sqrt x y a b c ∧
    hopalong2 sqrt x y a b c = variant2 sqrt x y a b c ∧
    jsign 0 = 0 ∧
    hopalong sqrt x y a b c = hopalong sqrt x2 y2 a2 b2 c2 ∧
    hopalong2 sqrt x y a b c = hopalong2 sqrt x2 y2 a2 b2 c2 := by
  obtain ⟨rfl, rfl, rfl, rfl, rfl⟩ := Prod.mk.injEq .. ▸ h
  exact ⟨rfl, rfl, by decide, rfl, rfl⟩

theorem claimC4_witness :
    ((0, 0, 0, 0, 0) = ((0 : ℚ), (0 : ℚ), (0 : ℚ), (0 : ℚ), (0 : ℚ))) ∧
    (hopalong sqrtZero 0 0 0 0 0 = variant1 sqrtZero 0 0 0 0 0 ∧
     hopalong2 sqrtZero 0 0 0 0 0 = variant2 sqrtZero 0 0 0 0 0 ∧
     jsign 0 = 0 ∧
     hopalong sqrtZero 0 0 0 0 0 = hopalong sqrtZero 0 0 0 0 0 ∧
     hopalong2 sqrtZero 0 0 0 0 0 = hopalong2 sqrtZero 0 0 0 0 0) :=
  ⟨rfl, claimC4 sqrtZero 0 0 0 0 0 0 0 0 0 0 rfl⟩

/-- C6 (amended): the deadzone maps `|v| < threshold` to exactly 0 and
otherwise returns `v - threshold` — which shifts positive values toward 0
by the threshold but shifts negative values *away* from 0; the gamepad
example (axes[0] = 0.05 under the standard strategy) still maps to
rotation speed exactly 0. -/
theorem claimC6 (sqrt : ℚ → ℚ) (pow : ℚ → ℚ → ℚ) (bounds : Bounds)
    (current : Movement) (axes : ℕ → ℚ) (v t : ℚ) (h : axes 0 = 1/20) :
    (|v| < t → deadzone v t = 0) ∧
    (¬ |v| < t → deadzone v t = v - t) ∧
    (stdGamepadMovementStrategy sqrt pow bounds current axes).rotationSpeed = 0 := by
  refine ⟨fun hv => by simp [deadzone, hv], fun hv => by simp [deadzone, hv], ?_⟩
  simp only [stdGamepadMovementStrategy, h]
  norm_num [deadzone, abs]

theorem claimC6_witness :
    ((fun _ : ℕ => (1/20 : ℚ)) 0 = 1/20) ∧
    ((|(1/20 : ℚ)| < 1/10 → deadzone (1/20) (1/10) = 0) ∧
     (¬ |(1/20 : ℚ)| < 1/10 → deadzone (1/20) (1/10) = 1/20 - 1/10) ∧
     (stdGamepadMovementStrategy sqrtZero powZero ⟨0, 0⟩ ⟨0, 0, 0, 0⟩
        (fun _ => 1/20)).rotationSpeed = 0) :=
  ⟨rfl, claimC6 sqrtZero powZero ⟨0, 0⟩ ⟨0, 0, 0, 0⟩ (fun _ => 1/20) (1/20) (1/10) rfl⟩

/-- C6 counterexample: for a negative stick value past the threshold the
code returns `v - threshold`, not the claimed shift *toward* 0 by the
threshold (`v - sign(v) * threshold`). At `v = -1/2`, `t = 1/10` the code
gives `-3/5`, farther from 0 than the input. -/
theorem claimC6_cex :
    deadzone (-(1/2)) (1/10) ≠ (-(1/2) : ℚ) - jsign (-(1/2)) * (1/10) := by
  norm_num [deadzone, jsign, abs]

/-- A small concrete state used by concrete counterexamples. -/
def stTiny : HState :=
  { orbitParams := ⟨0, 0, 0, 0, 0⟩, orbit := emptyOrbit, hueValues := [],
    mouseX := 0, mouseY := 0, mouseLocked := false, windowHalfX := 0, windowHalfY := 0,
    speed := 1, rotationSpeed := 1, numPointsSubset := 1, numSubsets := 1, numLevels := 1,
    cameraX := 0, cameraY := 0, cameraZ := 0, cameraFov := 60,
    particleSets := [], sceneIds := [], nextId := 0, firedSettings := [] }

/-- C7 (amended): in `setLevelSubsetCount` a falsy (0) or absent
levelCount/subsetCount/pointsPerSubset leaves the prior value unchanged;
but `applySettings` checks only for `undefined`, so an explicitly
requested 0 (or any value) for speed or rotationSpeed is applied, not
ignored. -/
theorem claimC7 (sqrt : ℚ → ℚ) (d : Draws) (st : HState) (r : ℚ) :
    (setLevelSubsetCount sqrt d (some 0) (some 0) (some 0) st).numLevels = st.numLevels ∧
    (setLevelSubsetCount sqrt d (some 0) (some 0) (some 0) st).numSubsets = st.numSubsets ∧
    (setLevelSubsetCount sqrt d (some 0) (some 0) (some 0) st).numPointsSubset
      = st.numPointsSubset ∧
    (setLevelSubsetCount sqrt d none none none st).numLevels = st.numLevels ∧
    (setLevelSubsetCount sqrt d none none none st).numSubsets = st.numSubsets ∧
    (setLevelSubsetCount sqrt d none none none st).numPointsSubset = st.numPointsSubset ∧
    (applySettings sqrt d none (some r) none none none none none st).rotationSpeed = r ∧
    (applySettings sqrt d (some r) none none none none none none st).speed = r := by
  obtain ⟨h1, h2, h3⟩ := setLSC_counts sqrt d (some 0) (some 0) (some 0) st
  obtain ⟨h4, h5, h6⟩ := setLSC_counts sqrt d none none none st
  refine ⟨?_, ?_, ?_, ?_, ?_, ?_, rfl, rfl⟩ <;> simp [h1, h2, h3, h4, h5, h6, jsOrInt]

/-- C7 counterexample: requesting `rotationSpeed = 0` through the
partial-update path (`applySettings`) is *not* ignored: from a state with
rotation speed 1 it really sets 0. -/
theorem claimC7_cex :
    (applySettings sqrtZero drawsZero none (some 0) none none none none none
        stTiny).rotationSpeed ≠ stTiny.rotationSpeed := by
  norm_num [applySettings, stTiny]

theorem claimC7_witness :
    (setLevelSubsetCount sqrtZero drawsZero (some 0) (some 0) (some 0) stTiny).numLevels
        = stTiny.numLevels ∧
    (setLevelSubsetCount sqrtZero drawsZero (some 0) (some 0) (some 0) stTiny).numSubsets
        = stTiny.numSubsets ∧
    (setLevelSubsetCount sqrtZero drawsZero (some 0) (some 0) (some 0)
        stTiny).numPointsSubset = stTiny.numPointsSubset ∧
    (setLevelSubsetCount sqrtZero drawsZero none none none stTiny).numLevels
        = stTiny.numLevels ∧
    (setLevelSubsetCount sqrtZero drawsZero none none none stTiny).numSubsets
        = stTiny.numSubsets ∧
    (setLevelSubsetCount sqrtZero drawsZero none none none stTiny).numPointsSubset
        = stTiny.numPointsSubset ∧
    (applySettings sqrtZero drawsZero none (some 0) none none none none none
        stTiny).rotationSpeed = 0 ∧
    (applySettings sqrtZero drawsZero (some 0) none none none none none none
        stTiny).speed = 0 :=
  claimC7 sqrtZero drawsZero stTiny 0

/-- C10: `recenterCamera` zeroes the camera x/y and the stored mouse x/y,
sets the mouse lock and fires the settings-change callback (with the
locked settings snapshot); with the lock set, subsequent mouse-move and
touch events leave the state (in particular mouseX/mouseY) unchanged. -/
theorem claimC10 (st : HState) (cx cy : ℚ) (touches : List (ℚ × ℚ)) :
    (recenterCamera st).cameraX = 0 ∧
    (recenterCamera st).cameraY = 0 ∧
    (recenterCamera st).mouseX = 0 ∧
    (recenterCamera st).mouseY = 0 ∧
    (recenterCamera st).mouseLocked = true ∧
    (recenterCamera st).firedSettings
      = st.firedSettings ++ [{ getSettings st with mouseLocked := true }] ∧
    onDocumentMouseMove cx cy (recenterCamera st) = recenterCamera st ∧
    onDocumentTouchStart touches (recenterCamera st) = recenterCamera st ∧
    onDocumentTouchMove touches (recenterCamera st) = recenterCamera st :=
  ⟨rfl, rfl, rfl, rfl, rfl, rfl, rfl, rfl, rfl⟩

theorem claimC10_witness :
    (recenterCamera stTiny).cameraX = 0 ∧
    (recenterCamera stTiny).cameraY = 0 ∧
    (recenterCamera stTiny).mouseX = 0 ∧
    (recenterCamera stTiny).mouseY = 0 ∧
    (recenterCamera stTiny).mouseLocked = true ∧
    (recenterCamera stTiny).firedSettings
      = stTiny.firedSettings ++ [{ getSettings stTiny with mouseLocked := true }] ∧
    onDocumentMouseMove 3 4 (recenterCamera stTiny) = recenterCamera stTiny ∧
    onDocumentTouchStart [(3, 4)] (recenterCamera stTiny) = recenterCamera stTiny ∧
    onDocumentTouchMove [(3, 4)] (recenterCamera stTiny) = recenterCamera stTiny :=
  claimC10 stTiny 3 4 [(3, 4)]

/-! ## Extent-tracking lemmas (toward C2/C3) -/

theorem updateExtent_spec (v mn mx : ℚ) (h1 : mn ≤ 0) (h2 : 0 ≤ mx) :
    (updateExtent v mn mx).1 ≤ mn ∧ mx ≤ (updateExtent v mn mx).2 ∧
    (updateExtent v mn mx).1 ≤ 0 ∧ 0 ≤ (updateExtent v mn mx).2 ∧
    (updateExtent v mn mx).1 ≤ v ∧ v ≤ (updateExtent v mn mx).2 := by
  unfold updateExtent
  split_ifs with hva hvb <;> refine ⟨?_, ?_, ?_, ?_, ?_, ?_⟩ <;> simp only [] <;> linarith

theorem genSubset_length (sqrt : ℚ → ℚ) (a b c : ℚ) :
    ∀ (old : List SubsetPoint) (x y : ℚ) (e : Extents),
      ((genSubset sqrt a b c old x y e).1).length = old.length := by
  intro old
  induction old with
  | nil => intro x y e; rfl
  | cons p rest ih =>
    intro x y e
    simp only [genSubset, List.length_cons, ih]

theorem genSubset_spec (sqrt : ℚ → ℚ) (a b c : ℚ) :
    ∀ (old : List SubsetPoint) (x y : ℚ) (e : Extents), e.xMin ≤ 0 → 0 ≤ e.xMax →
      e.yMin ≤ 0 → 0 ≤ e.yMax →
      (genSubset sqrt a b c old x y e).2.xMin ≤ e.xMin ∧
      e.xMax ≤ (genSubset sqrt a b c old x y e).2.xMax ∧
      (genSubset sqrt a b c old x y e).2.yMin ≤ e.yMin ∧
      e.yMax ≤ (genSubset sqrt a b c old x y e).2.yMax ∧
      (genSubset sqrt a b c old x y e).2.xMin ≤ 0 ∧
      0 ≤ (genSubset sqrt a b c old x y e).2.xMax ∧
      (genSubset sqrt a b c old x y e).2.yMin ≤ 0 ∧
      0 ≤ (genSubset sqrt a b c old x y e).2.yMax ∧
      ∀ pt ∈ (genSubset sqrt a b c old x y e).1,
        (genSubset sqrt a b c old x y e).2.xMin ≤ pt.x ∧
        pt.x ≤ (genSubset sqrt a b c old x y e).2.xMax ∧
        (genSubset sqrt a b c old x y e).2.yMin ≤ pt.y ∧
        pt.y ≤ (genSubset sqrt a b c old x y e).2.yMax := by
  intro old
  induction old with
  | nil =>
    intro x y e h1 h2 h3 h4
    exact ⟨le_refl _, le_refl _, le_refl _, le_refl _, h1, h2, h3, h4, by simp [genSubset]⟩
  | cons p rest ih =>
    intro x y e h1 h2 h3 h4
    obtain ⟨ux1, ux2, ux3, ux4, ux5, ux6⟩ :=
      updateExtent_spec (hopalong sqrt x y a b c).1 e.xMin e.xMax h1 h2
    obtain ⟨uy1, uy2, uy3, uy4, uy5, uy6⟩ :=
      updateExtent_spec (hopalong sqrt x y a b c).2 e.yMin e.yMax h3 h4
    obtain ⟨m1, m2, m3, m4, z1, z2, z3, z4, hb⟩ :=
      ih (hopalong sqrt x y a b c).1 (hopalong sqrt x y a b c).2
        ⟨(updateExtent (hopalong sqrt x y a b c).1 e.xMin e.xMax).1,
         (updateExtent (hopalong sqrt x y a b c).1 e.xMin e.xMax).2,
         (updateExtent (hopalong sqrt x y a b c).2 e.yMin e.yMax).1,
         (updateExtent (hopalong sqrt x y a b c).2 e.yMin e.yMax).2⟩
        ux3 ux4 uy3 uy4
    simp only [genSubset]
    refine ⟨le_trans m1 ux1, le_trans ux2 m2, le_trans m3 uy1, le_trans uy2 m4,
      z1, z2, z3, z4, ?_⟩
    intro pt hpt
    rcases List.mem_cons.mp hpt with hhead | htail
    · subst hhead
      exact ⟨le_trans m1 ux5, le_trans ux6 m2, le_trans m3 uy5, le_trans uy6 m4⟩
    · exact hb pt htail

theorem genSubsets_length (sqrt : ℚ → ℚ) (a b c : ℚ) (sx sy : ℕ → ℚ) :
    ∀ (subs : List (List SubsetPoint)) (s : ℕ) (e : Extents),
      ((genSubsets sqrt a b c sx sy s subs e).1).length = subs.length := by
  intro subs
  induction subs with
  | nil => intro s e; rfl
  | cons sub rest ih =>
    intro s e
    simp only [genSubsets, List.length_cons, ih]

theorem genSubsets_sublength (sqrt : ℚ → ℚ) (a b c : ℚ) (sx sy : ℕ → ℚ) (N : ℕ) :
    ∀ (subs : List (List SubsetPoint)) (s : ℕ) (e : Extents),
      (∀ sub ∈ subs, sub.length = N) →
      ∀ sub2 ∈ (genSubsets sqrt a b c sx sy s subs e).1, sub2.length = N := by
  intro subs
  induction subs with
  | nil => intro s e _ sub2 h2; simp [genSubsets] at h2
  | cons sub rest ih =>
    intro s e hlen sub2 h2
    simp only [genSubsets, List.mem_cons] at h2
    rcases h2 with h2 | h2
    · subst h2
      rw [genSubset_length]
      exact hlen sub (List.mem_cons_self _ _)
    · exact ih (s + 1) _ (fun u hu => hlen u (List.mem_cons_of_mem _ hu)) sub2 h2

theorem genSubsets_spec (sqrt : ℚ → ℚ) (a b c : ℚ) (sx sy : ℕ → ℚ) :
    ∀ (subs : List (List SubsetPoint)) (s : ℕ) (e : Extents), e.xMin ≤ 0 → 0 ≤ e.xMax →
      e.yMin ≤ 0 → 0 ≤ e.yMax →
      (genSubsets sqrt a b c sx sy s subs e).2.xMin ≤ e.xMin ∧
      e.xMax ≤ (genSubsets sqrt a b c sx sy s subs e).2.xMax ∧
      (genSubsets sqrt a b c sx sy s subs e).2.yMin ≤ e.yMin ∧
      e.yMax ≤ (genSubsets sqrt a b c sx sy s subs e).2.yMax ∧
      (genSubsets sqrt a b c sx sy s subs e).2.xMin ≤ 0 ∧
      0 ≤ (genSubsets sqrt a b c sx sy s subs e).2.xMax ∧
      (genSubsets sqrt a b c sx sy s subs e).2.yMin ≤ 0 ∧
      0 ≤ (genSubsets sqrt a b c sx sy s subs e).2.yMax ∧
      ∀ sub2 ∈ (genSubsets sqrt a b c sx sy s subs e).1, ∀ pt ∈ sub2,
        (genSubsets sqrt a b c sx sy s subs e).2.xMin ≤ pt.x ∧
        pt.x ≤ (genSubsets sqrt a b c sx sy s subs e).2.xMax ∧
        (genSubsets sqrt a b c sx sy s subs e).2.yMin ≤ pt.y ∧
        pt.y ≤ (genSubsets sqrt a b c sx sy s subs e).2.yMax := by
  intro subs
  induction subs with
  | nil =>
    intro s e h1 h2 h3 h4
    refine ⟨le_refl _, le_refl _, le_refl _, le_refl _, h1, h2, h3, h4, ?_⟩
    intro sub2 h2'
    simp [genSubsets] at h2'
  | cons sub rest ih =>
    intro s e h1 h2 h3 h4
    obtain ⟨g1, g2, g3, g4, gz1, gz2, gz3, gz4, gb⟩ :=
      genSubset_spec sqrt a b c sub (seedVal s (sx s)) (seedVal s (sy s)) e h1 h2 h3 h4
    obtain ⟨r1, r2, r3, r4, rz1, rz2, rz3, rz4, rb⟩ :=
      ih (s + 1) (genSubset sqrt a b c sub (seedVal s (sx s)) (seedVal s (sy s)) e).2
        gz1 gz2 gz3 gz4
    simp only [genSubsets]
    refine ⟨le_trans r1 g1, le_trans g2 r2, le_trans r3 g3, le_trans g4 r4,
      rz1, rz2, rz3, rz4, ?_⟩
    intro sub2 hsub2 pt hpt
    rcases List.mem_cons.mp hsub2 with hh | ht
    · subst hh
      obtain ⟨p1, p2, p3, p4⟩ := gb pt hpt
      exact ⟨le_trans r1 p1, le_trans p2 r2, le_trans r3 p3, le_trans p4 r4⟩
    · exact rb sub2 ht pt hpt

/-- C2: after `generate(S, N)` each of the S subsets has exactly N
points, the recorded extents bound the raw coordinates of every stored
point, and (because the running extents start at 0 and are updated by
strict comparisons) the extents always contain 0 on both axes. -/
theorem claimC2 (sqrt : ℚ → ℚ) (p : OrbitParams) (sx sy : ℕ → ℚ) (S N : ℕ)
    (hS : 1 ≤ S) (hN : 1 ≤ N) :
    (generate sqrt p sx sy S N).subsets.length = S ∧
    (∀ sub ∈ (generate sqrt p sx sy S N).subsets, sub.length = N) ∧
    (∀ sub ∈ (generate sqrt p sx sy S N).subsets, ∀ pt ∈ sub,
      (generate sqrt p sx sy S N).xMin ≤ pt.x ∧
      pt.x ≤ (generate sqrt p sx sy S N).xMax ∧
      (generate sqrt p sx sy S N).yMin ≤ pt.y ∧
      pt.y ≤ (generate sqrt p sx sy S N).yMax) ∧
    (generate sqrt p sx sy S N).xMin ≤ 0 ∧ 0 ≤ (generate sqrt p sx sy S N).xMax ∧
    (generate sqrt p sx sy S N).yMin ≤ 0 ∧ 0 ≤ (generate sqrt p sx sy S N).yMax := by
  have hinit : ∀ sub ∈ initSubsets S N, sub.length = N := by
    intro sub hsub
    rw [initSubsets] at hsub
    rw [List.eq_of_mem_replicate hsub]
    exact List.length_replicate _ _
  obtain ⟨_, _, _, _, z1, z2, z3, z4, hb⟩ :=
    genSubsets_spec sqrt p.a p.b p.c sx sy (initSubsets S N) 0 ⟨0, 0, 0, 0⟩
      le_rfl le_rfl le_rfl le_rfl
  simp only [generate, generateOrbitData]
  refine ⟨?_, ?_, ?_, z1, z2, z3, z4⟩
  · rw [List.length_map, genSubsets_length, initSubsets, List.length_replicate]
  · intro sub hsub
    obtain ⟨sub2, hsub2, rfl⟩ := List.mem_map.mp hsub
    rw [List.length_map]
    exact genSubsets_sublength sqrt p.a p.b p.c sx sy N (initSubsets S N) 0 _ hinit sub2 hsub2
  · intro sub hsub pt hpt
    obtain ⟨sub2, hsub2, rfl⟩ := List.mem_map.mp hsub
    obtain ⟨q, hq, rfl⟩ := List.mem_map.mp hpt
    exact hb sub2 hsub2 q hq

theorem claimC2_witness :
    ((1 : ℕ) ≤ 1 ∧ (1 : ℕ) ≤ 1) ∧
    ((generate sqrtZero ⟨0, 0, 0, 0, 0⟩ (fun _ => 0) (fun _ => 0) 1 1).subsets.length = 1 ∧
     (∀ sub ∈ (generate sqrtZero ⟨0, 0, 0, 0, 0⟩ (fun _ => 0) (fun _ => 0) 1 1).subsets,
        sub.length = 1) ∧
     (∀ sub ∈ (generate sqrtZero ⟨0, 0, 0, 0, 0⟩ (fun _ => 0) (fun _ => 0) 1 1).subsets,
        ∀ pt ∈ sub,
        (generate sqrtZero ⟨0, 0, 0, 0, 0⟩ (fun _ => 0) (fun _ => 0) 1 1).xMin ≤ pt.x ∧
        pt.x ≤ (generate sqrtZero ⟨0, 0, 0, 0, 0⟩ (fun _ => 0) (fun _ => 0) 1 1).xMax ∧
        (generate sqrtZero ⟨0, 0, 0, 0, 0⟩ (fun _ => 0) (fun _ => 0) 1 1).yMin ≤ pt.y ∧
        pt.y ≤ (generate sqrtZero ⟨0, 0, 0, 0, 0⟩ (fun _ => 0) (fun _ => 0) 1 1).yMax) ∧
     (generate sqrtZero ⟨0, 0, 0, 0, 0⟩ (fun _ => 0) (fun _ => 0) 1 1).xMin ≤ 0 ∧
     0 ≤ (generate sqrtZero ⟨0, 0, 0, 0, 0⟩ (fun _ => 0) (fun _ => 0) 1 1).xMax ∧
     (generate sqrtZero ⟨0, 0, 0, 0, 0⟩ (fun _ => 0) (fun _ => 0) 1 1).yMin ≤ 0 ∧
     0 ≤ (generate sqrtZero ⟨0, 0, 0, 0, 0⟩ (fun _ => 0) (fun _ => 0) 1 1).yMax) :=
  ⟨⟨le_rfl, le_rfl⟩,
    claimC2 sqrtZero ⟨0, 0, 0, 0, 0⟩ (fun _ => 0) (fun _ => 0) 1 1 le_rfl le_rfl⟩

/-! ## Vertex lemmas (toward C3) -/

theorem genSubset_vertexZ (sqrt : ℚ → ℚ) (a b c : ℚ) :
    ∀ (old : List SubsetPoint) (x y : ℚ) (e : Extents),
      (∀ q ∈ old, q.vertex.z = 0) →
      ∀ pt ∈ (genSubset sqrt a b c old x y e).1, pt.vertex.z = 0 := by
  intro old
  induction old with
  | nil => intro x y e _ pt hpt; simp [genSubset] at hpt
  | cons p rest ih =>
    intro x y e hz pt hpt
    simp only [genSubset, List.mem_cons] at hpt
    rcases hpt with hpt | hpt
    · subst hpt
      exact hz p (List.mem_cons_self _ _)
    · exact ih _ _ _ (fun q hq => hz q (List.mem_cons_of_mem _ hq)) pt hpt

theorem genSubsets_vertexZ (sqrt : ℚ → ℚ) (a b c : ℚ) (sx sy : ℕ → ℚ) :
    ∀ (subs : List (List SubsetPoint)) (s : ℕ) (e : Extents),
      (∀ sub ∈ subs, ∀ q ∈ sub, q.vertex.z = 0) →
      ∀ sub2 ∈ (genSubsets sqrt a b c sx sy s subs e).1, ∀ pt ∈ sub2, pt.vertex.z = 0 := by
  intro subs
  induction subs with
  | nil => intro s e _ sub2 h2; simp [genSubsets] at h2
  | cons sub rest ih =>
    intro s e hz sub2 h2 pt hpt
    simp only [genSubsets, List.mem_cons] at h2
    rcases h2 with h2 | h2
    · subst h2
      exact genSubset_vertexZ sqrt a b c sub _ _ e
        (fun q hq => hz sub (List.mem_cons_self _ _) q hq) pt hpt
    · exact ih (s + 1) _ (fun u hu q hq => hz u (List.mem_cons_of_mem _ hu) q hq) sub2 h2 pt hpt

theorem generate_vertexZ (sqrt : ℚ → ℚ) (p : OrbitParams) (sx sy : ℕ → ℚ) (S N : ℕ) :
    ∀ sub ∈ (generate sqrt p sx sy S N).subsets, ∀ pt ∈ sub, pt.vertex.z = 0 := by
  intro sub hsub pt hpt
  simp only [generate, generateOrbitData] at hsub
  obtain ⟨sub2, hsub2, rfl⟩ := List.mem_map.mp hsub
  obtain ⟨q, hq, rfl⟩ := List.mem_map.mp hpt
  show q.vertex.z = 0
  refine genSubsets_vertexZ sqrt p.a p.b p.c sx sy (initSubsets S N) 0 ⟨0, 0, 0, 0⟩
    ?_ sub2 hsub2 q hq
  intro u hu q2 hq2
  rw [initSubsets] at hu
  rw [List.eq_of_mem_replicate hu] at hq2
  rw [List.eq_of_mem_replicate hq2]
  rfl

theorem generate_vertex_formula (sqrt : ℚ → ℚ) (p : OrbitParams) (sx sy : ℕ → ℚ)
    (S N : ℕ) :
    ∀ sub ∈ (generate sqrt p sx sy S N).subsets, ∀ pt ∈ sub,
      pt.vertex.x = (generate sqrt p sx sy S N).scaleX *
          (pt.x - (generate sqrt p sx sy S N).xMin) - SCALE_FACTOR ∧
      pt.vertex.y = (generate sqrt p sx sy S N).scaleY *
          (pt.y - (generate sqrt p sx sy S N).yMin) - SCALE_FACTOR := by
  intro sub hsub pt hpt
  simp only [generate, generateOrbitData] at hsub ⊢
  obtain ⟨sub2, hsub2, rfl⟩ := List.mem_map.mp hsub
  obtain ⟨q, hq, rfl⟩ := List.mem_map.mp hpt
  exact ⟨rfl, rfl⟩

/-- C3: under the non-degeneracy precondition the normalization pass
yields, for every stored point, `vertex = (scaleX*(x-xMin)-K,
scaleY*(y-yMin)-K, 0)` with `scaleX = 2K/(xMax-xMin)`,
`scaleY = 2K/(yMax-yMin)`, `K = SCALE_FACTOR = 1500`; consequently a
point at `x = xMin` maps to exactly `-K` and a point at `x = xMax` maps
to exactly `+K`. (The code's second pass writes only the x and y vertex
components; z is 0 because `initOrbit` zeroed it and it is never
rewritten.) -/
theorem claimC3 (sqrt : ℚ → ℚ) (p : OrbitParams) (sx sy : ℕ → ℚ) (S N : ℕ)
    (h1 : (generate sqrt p sx sy S N).xMax ≠ (generate sqrt p sx sy S N).xMin)
    (h2 : (generate sqrt p sx sy S N).yMax ≠ (generate sqrt p sx sy S N).yMin) :
    (generate sqrt p sx sy S N).scaleX =
      2 * SCALE_FACTOR /
        ((generate sqrt p sx sy S N).xMax - (generate sqrt p sx sy S N).xMin) ∧
    (generate sqrt p sx sy S N).scaleY =
      2 * SCALE_FACTOR /
        ((generate sqrt p sx sy S N).yMax - (generate sqrt p sx sy S N).yMin) ∧
    ∀ sub ∈ (generate sqrt p sx sy S N).subsets, ∀ pt ∈ sub,
      pt.vertex.x = (generate sqrt p sx sy S N).scaleX *
          (pt.x - (generate sqrt p sx sy S N).xMin) - SCALE_FACTOR ∧
      pt.vertex.y = (generate sqrt p sx sy S N).scaleY *
          (pt.y - (generate sqrt p sx sy S N).yMin) - SCALE_FACTOR ∧
      pt.vertex.z = 0 ∧
      (pt.x = (generate sqrt p sx sy S N).xMin → pt.vertex.x = -SCALE_FACTOR) ∧
      (pt.x = (generate sqrt p sx sy S N).xMax → pt.vertex.x = SCALE_FACTOR) := by
  refine ⟨rfl, rfl, ?_⟩
  intro sub hsub pt hpt
  obtain ⟨hx, hy⟩ := generate_vertex_formula sqrt p sx sy S N sub hsub pt hpt
  have hz := generate_vertexZ sqrt p sx sy S N sub hsub pt hpt
  refine ⟨hx, hy, hz, ?_, ?_⟩
  · intro hmin
    rw [hx, hmin, sub_self, mul_zero, zero_sub]
  · intro hmax
    have hs : (generate sqrt p sx sy S N).scaleX =
        2 * SCALE_FACTOR /
          ((generate sqrt p sx sy S N).xMax - (generate sqrt p sx sy S N).xMin) := rfl
    rw [hx, hmax, hs, div_mul_cancel₀ _ (sub_ne_zero.mpr h1)]
    ring

/-- A concrete non-degenerate orbit: parameters (a, b, c) = (1, 0, 0),
zero seeds, one subset of two points, yielding extents
xMin = 0, xMax = 1, yMin = 0, yMax = 1. -/
def orbC3 : OrbitData := generate sqrtZero ⟨1, 0, 0, 0, 0⟩ (fun _ => 0) (fun _ => 0) 1 2

theorem claimC3_witness :
    (orbC3.xMax ≠ orbC3.xMin) ∧ (orbC3.yMax ≠ orbC3.yMin) ∧
    (orbC3.scaleX = 2 * SCALE_FACTOR / (orbC3.xMax - orbC3.xMin) ∧
     orbC3.scaleY = 2 * SCALE_FACTOR / (orbC3.yMax - orbC3.yMin) ∧
     ∀ sub ∈ orbC3.subsets, ∀ pt ∈ sub,
       pt.vertex.x = orbC3.scaleX * (pt.x - orbC3.xMin) - SCALE_FACTOR ∧
       pt.vertex.y = orbC3.scaleY * (pt.y - orbC3.yMin) - SCALE_FACTOR ∧
       pt.vertex.z = 0 ∧
       (pt.x = orbC3.xMin → pt.vertex.x = -SCALE_FACTOR) ∧
       (pt.x = orbC3.xMax → pt.vertex.x = SCALE_FACTOR)) := by
  have h1 : orbC3.xMax ≠ orbC3.xMin := by
    norm_num [orbC3, generate, generateOrbitData, genSubsets, genSubset, hopalong,
      updateExtent, seedVal, jsign, sqrtZero, initSubsets, List.replicate]
  have h2 : orbC3.yMax ≠ orbC3.yMin := by
    norm_num [orbC3, generate, generateOrbitData, genSubsets, genSubset, hopalong,
      updateExtent, seedVal, jsign, sqrtZero, initSubsets, List.replicate]
  exact ⟨h1, h2, claimC3 sqrtZero ⟨1, 0, 0, 0, 0⟩ (fun _ => 0) (fun _ => 0) 1 2 h1 h2⟩

/-! ## Raw-sequence lemmas (toward C9) -/

theorem rawPoint_normalize (a b c d : ℚ) (q : SubsetPoint) :
    rawPoint (normalizePoint a b c d q) = rawPoint q := rfl

theorem seedVal_zero (r : ℚ) : seedVal 0 r = 0 := by
  simp [seedVal]

theorem genSubset_raw (sqrt : ℚ → ℚ) (a b c : ℚ) :
    ∀ (old : List SubsetPoint) (x y : ℚ) (e : Extents),
      ((genSubset sqrt a b c old x y e).1).map rawPoint = rawIter sqrt a b c old.length x y := by
  intro old
  induction old with
  | nil => intro x y e; rfl
  | cons p rest ih =>
    intro x y e
    simp only [genSubset, List.map_cons, List.length_cons, rawIter, rawPoint, ih]

theorem map_rawPoint_normalize (a b c d : ℚ) (l : List SubsetPoint) :
    (l.map (normalizePoint a b c d)).map rawPoint = l.map rawPoint := by
  induction l with
  | nil => rfl
  | cons q rest ih => simp only [List.map_cons, rawPoint_normalize, ih]

theorem generate_head_raw (sqrt : ℚ → ℚ) (p : OrbitParams) (sx sy : ℕ → ℚ) (S N : ℕ) :
    ((generate sqrt p sx sy S N).subsets.map (List.map rawPoint)).head? =
      (if S = 0 then none else some (rawIter sqrt p.a p.b p.c N 0 0)) := by
  cases S with
  | zero => simp [generate, generateOrbitData, initSubsets, genSubsets]
  | succ S2 =>
    simp only [generate, generateOrbitData, initSubsets, List.replicate_succ, genSubsets,
      List.map_cons, List.head?_cons, Nat.succ_ne_zero, if_false]
    rw [map_rawPoint_normalize, genSubset_raw, List.length_replicate,
      seedVal_zero, seedVal_zero]

/-- C9: the subset-0 statement packaged: the seeding formula gives 0 for
subset 0, and the head subset's raw sequence after `generate`. -/
theorem claimC9 (sqrt : ℚ → ℚ) (p : OrbitParams) (sx sy sx2 sy2 : ℕ → ℚ)
    (S N : ℕ) (r : ℚ) :
    seedVal 0 r = 0 ∧
    ((generate sqrt p sx sy S N).subsets.map (List.map rawPoint)).head? =
      (if S = 0 then none else some (rawIter sqrt p.a p.b p.c N 0 0)) ∧
    ((generate sqrt p sx sy S N).subsets.map (List.map rawPoint)).head? =
      ((generate sqrt p sx2 sy2 S N).subsets.map (List.map rawPoint)).head? := by
  refine ⟨seedVal_zero r, generate_head_raw sqrt p sx sy S N, ?_⟩
  rw [generate_head_raw, generate_head_raw]

/-! ## The frame effect (toward C5) -/

/-- The spec-side description of one frame's effect on one particle set:
advance z by speed and rotation by rotation speed; when the advanced z
exceeds the camera's z, reset z behind the farthest level; rebuild the
displayed geometry and color from the latest orbit data and clear the
dirty flag exactly when the set crossed the camera while dirty. -/
def specFrameStep (speed rotationSpeed cameraZ : ℚ) (numLevels : ℤ)
    (subsets : List (List SubsetPoint)) (hues : List ℚ) (ps : PSetR) : PSetR :=
  { id := ps.id, myLevel := ps.myLevel, mySubset := ps.mySubset,
    needsUpdate :=
      if ps.posZ + speed > cameraZ ∧ ps.needsUpdate = true then false else ps.needsUpdate,
    posZ :=
      if ps.posZ + speed > cameraZ then -((numLevels : ℚ) - 1) * LEVEL_DEPTH
      else ps.posZ + speed,
    rotZ := ps.rotZ + rotationSpeed,
    geometry :=
      if ps.posZ + speed > cameraZ ∧ ps.needsUpdate = true
      then (subsets.getD ps.mySubset []).map (fun p => p.vertex) else ps.geometry,
    colorHue :=
      if ps.posZ + speed > cameraZ ∧ ps.needsUpdate = true
      then hues.getD ps.mySubset 0 else ps.colorHue }

theorem stepParticle_eq_spec (speed rotationSpeed cameraZ : ℚ) (numLevels : ℤ)
    (subsets : List (List SubsetPoint)) (hues : List ℚ) (ps : PSetR) :
    stepParticle speed rotationSpeed cameraZ numLevels subsets hues ps =
      specFrameStep speed rotationSpeed cameraZ numLevels subsets hues ps := by
  unfold stepParticle specFrameStep
  by_cases hc : ps.posZ + speed > cameraZ
  · by_cases hd : ps.needsUpdate = true
    · simp [hc, hd]
    · simp only [Bool.not_eq_true] at hd
      simp [hc, hd]
  · simp [hc]

/-- C5: `updateOrbit` only stages new orbit data and hues and marks every
tracked particle set dirty — it never changes a set's displayed geometry,
color, transform or identity, and touches nothing else about the
scene/tracking; in the per-frame step each particle set evolves exactly
by `specFrameStep`: geometry and color are rebuilt from the latest orbit
subset data and the dirty flag cleared exactly when the set's advanced z
exceeds the camera's z while the flag is set (z then resets to
`-(numLevels-1)*LEVEL_DEPTH`); a set that does not cross keeps geometry,
color and flag unchanged that frame. -/
theorem claimC5 (sqrt : ℚ → ℚ) (d : Draws) (st : HState) :
    (updateOrbit sqrt d st).particleSets =
      st.particleSets.map (fun ps => { ps with needsUpdate := true }) ∧
    (updateOrbit sqrt d st).sceneIds = st.sceneIds ∧
    (updateOrbit sqrt d st).nextId = st.nextId ∧
    (render st).particleSets =
      st.particleSets.map (specFrameStep st.speed st.rotationSpeed st.cameraZ st.numLevels
        st.orbit.subsets st.hueValues) := by
  refine ⟨rfl, rfl, rfl, ?_⟩
  show st.particleSets.map (stepParticle st.speed st.rotationSpeed st.cameraZ st.numLevels
      st.orbit.subsets st.hueValues) = _
  rw [funext (stepParticle_eq_spec st.speed st.rotationSpeed st.cameraZ st.numLevels
    st.orbit.subsets st.hueValues)]

/-! ## Identity-level view of reconciliation (toward C1/C8) -/

/-- (level, subset, id) records tagged with consecutive ids from `n`. -/
def tagPairs : List (ℕ × ℕ) → ℕ → List (ℕ × ℕ × ℕ)
  | [], _ => []
  | pr :: rest, n => (pr.1, pr.2, n) :: tagPairs rest (n + 1)

/-- `keepPS` on the identity projection. -/
def keepRec (L S : ℤ) (r : ℕ × ℕ × ℕ) : Bool :=
  decide ((r.1 : ℤ) < L ∧ (r.2.1 : ℤ) < S)

def pairOfRec (r : ℕ × ℕ × ℕ) : ℕ × ℕ := (r.1, r.2.1)

/-- The pairs the creation loop will instantiate, on the identity
projection of the tracked sets. -/
def createdPairs (L S : ℤ) (recs : List (ℕ × ℕ × ℕ)) : List (ℕ × ℕ) :=
  (allPairs L.toNat S.toNat).filter
    (fun pr => decide (pr ∉ (recs.filter (keepRec L S)).map pairOfRec))

/-- The ids the reconciliation filter removes from the scene, on the
identity projection. -/
def removedRecIds (L S : ℤ) (recs : List (ℕ × ℕ × ℕ)) : List ℕ :=
  (recs.filter (fun r => !(keepRec L S r))).map (fun r => r.2.2)

/-- Full reconciliation on the identity projection. -/
def reconcileRecs (L S : ℤ) (recs : List (ℕ × ℕ × ℕ)) (nextId : ℕ) : List (ℕ × ℕ × ℕ) :=
  recs.filter (keepRec L S) ++ tagPairs (createdPairs L S recs) nextId

theorem keepPS_eq_keepRec (L S : ℤ) (ps : PSetR) :
    keepPS L S ps = keepRec L S (rec3 ps) := rfl

theorem tagPairs_map_pairOfRec : ∀ (prs : List (ℕ × ℕ)) (n : ℕ),
    (tagPairs prs n).map pairOfRec = prs := by
  intro prs
  induction prs with
  | nil => intro n; rfl
  | cons pr rest ih =>
    intro n
    simp only [tagPairs, List.map_cons, ih]
    rfl

theorem newParticleSets_map_rec3 (st : HState) : ∀ (prs : List (ℕ × ℕ)) (n : ℕ),
    (newParticleSets st prs n).map rec3 = tagPairs prs n := by
  intro prs
  induction prs with
  | nil => intro n; rfl
  | cons pr rest ih =>
    intro n
    simp only [newParticleSets, List.map_cons, ih, tagPairs]
    rfl

theorem newParticleSets_length (st : HState) : ∀ (prs : List (ℕ × ℕ)) (n : ℕ),
    (newParticleSets st prs n).length = prs.length := by
  intro prs
  induction prs with
  | nil => intro n; rfl
  | cons pr rest ih => intro n; simp only [newParticleSets, List.length_cons, ih]

theorem mem_allPairs (L S : ℕ) (pr : ℕ × ℕ) :
    pr ∈ allPairs L S ↔ pr.1 < L ∧ pr.2 < S := by
  simp only [allPairs, List.mem_flatMap, List.mem_map, List.mem_range]
  constructor
  · rintro ⟨k, hk, s, hs, rfl⟩
    exact ⟨hk, hs⟩
  · rintro ⟨h1, h2⟩
    exact ⟨pr.1, h1, pr.2, h2, rfl⟩

theorem jsOrInt_idem (v : Option ℤ) (old : ℤ) :
    jsOrInt v (jsOrInt v old) = jsOrInt v old := by
  cases v with
  | none => rfl
  | some n => by_cases h : n = 0 <;> simp [jsOrInt, h]

/-! ## Phase lemmas for `setLevelSubsetCount` -/

theorem regenIfNeeded_rec3 (sqrt : ℚ → ℚ) (d : Draws) (pp sc : Option ℤ) (st : HState) :
    (regenIfNeeded sqrt d pp sc st).particleSets.map rec3 = st.particleSets.map rec3 := by
  unfold regenIfNeeded
  split
  · show ((st.particleSets.map (fun ps => { ps with needsUpdate := true })).map rec3) = _
    rw [List.map_map]
    rfl
  · rfl

theorem regenIfNeeded_strip (sqrt : ℚ → ℚ) (d : Draws) (pp sc : Option ℤ) (st : HState) :
    (regenIfNeeded sqrt d pp sc st).particleSets.map stripPS = st.particleSets.map stripPS := by
  unfold regenIfNeeded
  split
  · show ((st.particleSets.map (fun ps => { ps with needsUpdate := true })).map stripPS) = _
    rw [List.map_map]
    rfl
  · rfl

theorem regenIfNeeded_sceneIds (sqrt : ℚ → ℚ) (d : Draws) (pp sc : Option ℤ) (st : HState) :
    (regenIfNeeded sqrt d pp sc st).sceneIds = st.sceneIds := by
  unfold regenIfNeeded
  split <;> rfl

theorem regenIfNeeded_nextId (sqrt : ℚ → ℚ) (d : Draws) (pp sc : Option ℤ) (st : HState) :
    (regenIfNeeded sqrt d pp sc st).nextId = st.nextId := by
  unfold regenIfNeeded
  split <;> rfl

theorem regenIfNeeded_numLevels (sqrt : ℚ → ℚ) (d : Draws) (pp sc : Option ℤ) (st : HState) :
    (regenIfNeeded sqrt d pp sc st).numLevels = st.numLevels := by
  unfold regenIfNeeded
  split <;> rfl

theorem regenIfNeeded_numSubsets (sqrt : ℚ → ℚ) (d : Draws) (pp sc : Option ℤ) (st : HState) :
    (regenIfNeeded sqrt d pp sc st).numSubsets = st.numSubsets := by
  unfold regenIfNeeded
  split <;> rfl

theorem removeStale_particleSets (st : HState) :
    (removeStale st).particleSets =
      st.particleSets.filter (keepPS st.numLevels st.numSubsets) := rfl

theorem removeStale_sceneIds (st : HState) :
    (removeStale st).sceneIds =
      st.sceneIds.filter (fun i => decide (i ∉
        (st.particleSets.filter (fun ps => !(keepPS st.numLevels st.numSubsets ps))).map
          (fun ps => ps.id))) := rfl

theorem removeStale_nextId (st : HState) : (removeStale st).nextId = st.nextId := rfl

theorem removeStale_numLevels (st : HState) : (removeStale st).numLevels = st.numLevels := rfl

theorem removeStale_numSubsets (st : HState) :
    (removeStale st).numSubsets = st.numSubsets := rfl

theorem createNeeded_eq (st : HState) :
    createNeeded st = createMissing (st.particleSets.map pairOf)
      (allPairs st.numLevels.toNat st.numSubsets.toNat) st := rfl

theorem reconcile_phase (stR : HState) :
    (createNeeded (removeStale stR)).particleSets.map rec3 =
      reconcileRecs stR.numLevels stR.numSubsets (stR.particleSets.map rec3) stR.nextId ∧
    (createNeeded (removeStale stR)).sceneIds =
      stR.sceneIds.filter (fun i => decide (i ∉ removedRecIds stR.numLevels stR.numSubsets
        (stR.particleSets.map rec3))) ++
      List.range' stR.nextId (createdPairs stR.numLevels stR.numSubsets
        (stR.particleSets.map rec3)).length ∧
    (createNeeded (removeStale stR)).nextId =
      stR.nextId + (createdPairs stR.numLevels stR.numSubsets
        (stR.particleSets.map rec3)).length := by
  have hkept : (removeStale stR).particleSets.map rec3 =
      (stR.particleSets.map rec3).filter (keepRec stR.numLevels stR.numSubsets) :=
    listFilterMap rec3 (keepRec stR.numLevels stR.numSubsets) stR.particleSets
  have hex : (removeStale stR).particleSets.map pairOf =
      ((stR.particleSets.map rec3).filter (keepRec stR.numLevels stR.numSubsets)).map
        pairOfRec := by
    have hmm : (removeStale stR).particleSets.map pairOf =
        ((removeStale stR).particleSets.map rec3).map pairOfRec := by
      rw [List.map_map]
      rfl
    rw [hmm, hkept]
  have hrm : ((stR.particleSets.filter
        (fun ps => !(keepPS stR.numLevels stR.numSubsets ps))).map (fun ps => ps.id)) =
      removedRecIds stR.numLevels stR.numSubsets (stR.particleSets.map rec3) := by
    have hmm : ((stR.particleSets.filter
        (fun ps => !(keepPS stR.numLevels stR.numSubsets ps))).map (fun ps => ps.id)) =
        (((stR.particleSets.filter
          (fun ps => !(keepPS stR.numLevels stR.numSubsets ps))).map rec3).map
            (fun r => r.2.2)) := by
      rw [List.map_map]
      rfl
    have h2 : (stR.particleSets.filter
        (fun ps => !(keepPS stR.numLevels stR.numSubsets ps))).map rec3 =
        (stR.particleSets.map rec3).filter
          (fun r => !(keepRec stR.numLevels stR.numSubsets r)) :=
      listFilterMap rec3 (fun r => !(keepRec stR.numLevels stR.numSubsets r)) stR.particleSets
    rw [hmm, h2]
    rfl
  rw [createNeeded_eq, createMissing_eq]
  refine ⟨?_, ?_, ?_⟩
  · show ((removeStale stR).particleSets ++ _).map rec3 = _
    rw [List.map_append, hkept, newParticleSets_map_rec3]
    simp only [hex, removeStale_numLevels, removeStale_numSubsets, removeStale_nextId]
    rfl
  · show (removeStale stR).sceneIds ++ _ = _
    rw [removeStale_sceneIds]
    simp only [hrm, hex, removeStale_numLevels, removeStale_numSubsets, removeStale_nextId,
      newParticleSets_length]
    rfl
  · show (removeStale stR).nextId + _ = _
    simp only [hex, removeStale_numLevels, removeStale_numSubsets, removeStale_nextId]
    rfl

theorem applyCounts_particleSets (lc pp sc : Option ℤ) (st : HState) :
    (applyCounts lc pp sc st).particleSets = st.particleSets := rfl

theorem applyCounts_sceneIds (lc pp sc : Option ℤ) (st : HState) :
    (applyCounts lc pp sc st).sceneIds = st.sceneIds := rfl

theorem applyCounts_nextId (lc pp sc : Option ℤ) (st : HState) :
    (applyCounts lc pp sc st).nextId = st.nextId := rfl

theorem applyCounts_numLevels (lc pp sc : Option ℤ) (st : HState) :
    (applyCounts lc pp sc st).numLevels = jsOrInt lc st.numLevels := rfl

theorem applyCounts_numSubsets (lc pp sc : Option ℤ) (st : HState) :
    (applyCounts lc pp sc st).numSubsets = jsOrInt sc st.numSubsets := rfl

theorem fireSettingsChange_particleSets (st : HState) :
    (fireSettingsChange st).particleSets = st.particleSets := rfl

theorem fireSettingsChange_sceneIds (st : HState) :
    (fireSettingsChange st).sceneIds = st.sceneIds := rfl

theorem fireSettingsChange_nextId (st : HState) :
    (fireSettingsChange st).nextId = st.nextId := rfl

/-- The identity-level effect of `setLevelSubsetCount`: tracked
(level, subset, id) records are reconciled against the new counts, the
scene loses exactly the removed ids and gains the created ones, and the
creation counter advances by the number of created sets. -/
theorem setLSC_ids (sqrt : ℚ → ℚ) (d : Draws) (lc pp sc : Option ℤ) (st : HState) :
    (setLevelSubsetCount sqrt d lc pp sc st).particleSets.map rec3 =
      reconcileRecs (jsOrInt lc st.numLevels) (jsOrInt sc st.numSubsets)
        (st.particleSets.map rec3) st.nextId ∧
    (setLevelSubsetCount sqrt d lc pp sc st).sceneIds =
      st.sceneIds.filter (fun i => decide (i ∉ removedRecIds (jsOrInt lc st.numLevels)
        (jsOrInt sc st.numSubsets) (st.particleSets.map rec3))) ++
      List.range' st.nextId
        (createdPairs (jsOrInt lc st.numLevels) (jsOrInt sc st.numSubsets)
          (st.particleSets.map rec3)).length ∧
    (setLevelSubsetCount sqrt d lc pp sc st).nextId =
      st.nextId + (createdPairs (jsOrInt lc st.numLevels) (jsOrInt sc st.numSubsets)
        (st.particleSets.map rec3)).length := by
  obtain ⟨h1, h2, h3⟩ := reconcile_phase (regenIfNeeded sqrt d pp sc (applyCounts lc pp sc st))
  simp only [regenIfNeeded_numLevels, regenIfNeeded_numSubsets, regenIfNeeded_nextId,
    regenIfNeeded_rec3, regenIfNeeded_sceneIds, applyCounts_particleSets, applyCounts_sceneIds,
    applyCounts_nextId, applyCounts_numLevels, applyCounts_numSubsets] at h1 h2 h3
  unfold setLevelSubsetCount
  rw [fireSettingsChange_particleSets, fireSettingsChange_sceneIds, fireSettingsChange_nextId]
  exact ⟨h1, h2, h3⟩

theorem tagPairs_mem : ∀ (prs : List (ℕ × ℕ)) (n : ℕ) (r : ℕ × ℕ × ℕ),
    r ∈ tagPairs prs n → pairOfRec r ∈ prs := by
  intro prs
  induction prs with
  | nil => intro n r hr; simp [tagPairs] at hr
  | cons pr rest ih =>
    intro n r hr
    rcases List.mem_cons.mp hr with h | h
    · subst h
      exact List.mem_cons_self _ _
    · exact List.mem_cons_of_mem _ (ih (n + 1) r h)

theorem reconcileRecs_keep (L S : ℤ) (recs : List (ℕ × ℕ × ℕ)) (n : ℕ) :
    ∀ r ∈ reconcileRecs L S recs n, keepRec L S r = true := by
  intro r hr
  rcases List.mem_append.mp hr with h | h
  · exact (List.mem_filter.mp h).2
  · have hpr : pairOfRec r ∈ createdPairs L S recs := tagPairs_mem _ n r h
    have hall : pairOfRec r ∈ allPairs L.toNat S.toNat := List.mem_of_mem_filter hpr
    rw [mem_allPairs] at hall
    simp only [keepRec, pairOfRec] at hall ⊢
    simp only [decide_eq_true_eq]
    omega

theorem reconcileRecs_complete (L S : ℤ) (recs : List (ℕ × ℕ × ℕ)) (n : ℕ) :
    ∀ pr ∈ allPairs L.toNat S.toNat, pr ∈ (reconcileRecs L S recs n).map pairOfRec := by
  intro pr hpr
  rw [reconcileRecs, List.map_append, tagPairs_map_pairOfRec]
  by_cases hin : pr ∈ (recs.filter (keepRec L S)).map pairOfRec
  · exact List.mem_append_left _ hin
  · refine List.mem_append_right _ ?_
    rw [createdPairs]
    exact List.mem_filter.mpr ⟨hpr, by simpa using hin⟩

theorem reconcile_phase_strip (stR : HState) :
    (createNeeded (removeStale stR)).particleSets.map stripPS =
      (stR.particleSets.filter (keepPS stR.numLevels stR.numSubsets)).map stripPS ++
      (newParticleSets (removeStale stR)
        (createdPairs stR.numLevels stR.numSubsets (stR.particleSets.map rec3))
        stR.nextId).map stripPS := by
  have hex : (removeStale stR).particleSets.map pairOf =
      ((stR.particleSets.map rec3).filter (keepRec stR.numLevels stR.numSubsets)).map
        pairOfRec := by
    have hmm : (removeStale stR).particleSets.map pairOf =
        ((removeStale stR).particleSets.map rec3).map pairOfRec := by
      rw [List.map_map]
      rfl
    have hfl : (removeStale stR).particleSets.map rec3 =
        (stR.particleSets.map rec3).filter (keepRec stR.numLevels stR.numSubsets) :=
      listFilterMap rec3 (keepRec stR.numLevels stR.numSubsets) stR.particleSets
    rw [hmm, hfl]
  rw [createNeeded_eq, createMissing_eq]
  show ((removeStale stR).particleSets ++ _).map stripPS = _
  rw [List.map_append]
  congr 1
  simp only [hex, removeStale_numLevels, removeStale_numSubsets, removeStale_nextId]
  rfl

theorem regen_filter_strip (sqrt : ℚ → ℚ) (d : Draws) (pp sc : Option ℤ) (L S : ℤ)
    (st : HState) :
    ((regenIfNeeded sqrt d pp sc st).particleSets.filter (keepPS L S)).map stripPS =
      (st.particleSets.filter (keepPS L S)).map stripPS := by
  unfold regenIfNeeded
  split
  · show (((st.particleSets.map (fun ps => { ps with needsUpdate := true })).filter
        (keepPS L S)).map stripPS) = _
    have hfm : ((st.particleSets.map (fun ps => { ps with needsUpdate := true })).filter
        (keepPS L S)) =
        (st.particleSets.filter (keepPS L S)).map
          (fun ps => { ps with needsUpdate := true }) :=
      (listFilterMap (fun ps => { ps with needsUpdate := true }) (keepPS L S)
        st.particleSets).symm
    rw [hfm, List.map_map]
    rfl
  · rfl

/-- After `setLevelSubsetCount`, the dirty-flag-insensitive view of the
tracked particle sets is: the surviving original sets (identity,
transform, geometry and color untouched) followed by the newly created
ones. -/
theorem setLSC_strip (sqrt : ℚ → ℚ) (d : Draws) (lc pp sc : Option ℤ) (st : HState) :
    (setLevelSubsetCount sqrt d lc pp sc st).particleSets.map stripPS =
      (st.particleSets.filter
        (keepPS (jsOrInt lc st.numLevels) (jsOrInt sc st.numSubsets))).map stripPS ++
      (newParticleSets (removeStale (regenIfNeeded sqrt d pp sc (applyCounts lc pp sc st)))
        (createdPairs (jsOrInt lc st.numLevels) (jsOrInt sc st.numSubsets)
          (st.particleSets.map rec3)) st.nextId).map stripPS := by
  have h := reconcile_phase_strip (regenIfNeeded sqrt d pp sc (applyCounts lc pp sc st))
  simp only [regenIfNeeded_numLevels, regenIfNeeded_numSubsets, regenIfNeeded_nextId,
    regenIfNeeded_rec3, applyCounts_particleSets, applyCounts_nextId, applyCounts_numLevels,
    applyCounts_numSubsets,
    regen_filter_strip sqrt d pp sc (jsOrInt lc st.numLevels) (jsOrInt sc st.numSubsets)] at h
  unfold setLevelSubsetCount
  rw [fireSettingsChange_particleSets]
  exact h

/-- C8: particle-set reconciliation is idempotent. A second
`setLevelSubsetCount` with the same requested counts creates no particle
sets (the creation counter does not advance), performs no scene removals
or additions, and leaves every tracked set's identity, indices,
transform, geometry and color exactly as after the first call; moreover
every set of the original state whose indices remain in range survives
the first call with identity, geometry and color untouched (only the
dirty flag may differ), followed only by newly created sets. -/
theorem claimC8 (sqrt : ℚ → ℚ) (d d2 : Draws) (lc pp sc : Option ℤ) (st : HState) :
    (setLevelSubsetCount sqrt d2 lc pp sc (setLevelSubsetCount sqrt d lc pp sc st)).nextId =
      (setLevelSubsetCount sqrt d lc pp sc st).nextId ∧
    (setLevelSubsetCount sqrt d2 lc pp sc (setLevelSubsetCount sqrt d lc pp sc st)).sceneIds =
      (setLevelSubsetCount sqrt d lc pp sc st).sceneIds ∧
    (setLevelSubsetCount sqrt d2 lc pp sc
        (setLevelSubsetCount sqrt d lc pp sc st)).particleSets.map stripPS =
      (setLevelSubsetCount sqrt d lc pp sc st).particleSets.map stripPS ∧
    ∃ created, (setLevelSubsetCount sqrt d lc pp sc st).particleSets.map stripPS =
      (st.particleSets.filter
        (keepPS (jsOrInt lc st.numLevels) (jsOrInt sc st.numSubsets))).map stripPS ++
      created := by
  obtain ⟨hc1, hc2, _⟩ := setLSC_counts sqrt d lc pp sc st
  obtain ⟨hi1, hi2, hi3⟩ := setLSC_ids sqrt d2 lc pp sc (setLevelSubsetCount sqrt d lc pp sc st)
  have hstrip2 := setLSC_strip sqrt d2 lc pp sc (setLevelSubsetCount sqrt d lc pp sc st)
  rw [hc1, hc2, jsOrInt_idem, jsOrInt_idem] at hi1 hi2 hi3 hstrip2
  have hrecs1 : (setLevelSubsetCount sqrt d lc pp sc st).particleSets.map rec3 =
      reconcileRecs (jsOrInt lc st.numLevels) (jsOrInt sc st.numSubsets)
        (st.particleSets.map rec3) st.nextId := (setLSC_ids sqrt d lc pp sc st).1
  have hkeep1 : ∀ r ∈ (setLevelSubsetCount sqrt d lc pp sc st).particleSets.map rec3,
      keepRec (jsOrInt lc st.numLevels) (jsOrInt sc st.numSubsets) r = true := by
    rw [hrecs1]
    exact reconcileRecs_keep _ _ _ _
  have hkept1 : ((setLevelSubsetCount sqrt d lc pp sc st).particleSets.map rec3).filter
      (keepRec (jsOrInt lc st.numLevels) (jsOrInt sc st.numSubsets)) =
      (setLevelSubsetCount sqrt d lc pp sc st).particleSets.map rec3 :=
    List.filter_eq_self.mpr hkeep1
  have hcreated1 : createdPairs (jsOrInt lc st.numLevels) (jsOrInt sc st.numSubsets)
      ((setLevelSubsetCount sqrt d lc pp sc st).particleSets.map rec3) = [] := by
    rw [createdPairs, hkept1]
    refine List.filter_eq_nil_iff.mpr ?_
    intro pr hpr
    have := reconcileRecs_complete (jsOrInt lc st.numLevels) (jsOrInt sc st.numSubsets)
      (st.particleSets.map rec3) st.nextId pr hpr
    rw [← hrecs1] at this
    simp only [decide_eq_true_eq, not_not]
    exact this
  have hremoved1 : removedRecIds (jsOrInt lc st.numLevels) (jsOrInt sc st.numSubsets)
      ((setLevelSubsetCount sqrt d lc pp sc st).particleSets.map rec3) = [] := by
    rw [removedRecIds]
    have hnil : ((setLevelSubsetCount sqrt d lc pp sc st).particleSets.map rec3).filter
        (fun r => !(keepRec (jsOrInt lc st.numLevels) (jsOrInt sc st.numSubsets) r)) = [] :=
      List.filter_eq_nil_iff.mpr (fun r hr => by simp [hkeep1 r hr])
    rw [hnil]
    rfl
  refine ⟨?_, ?_, ?_, ?_⟩
  · rw [hi3, hcreated1]
    simp
  · rw [hi2, hremoved1, hcreated1]
    simp only [List.length_nil, List.range'_zero, List.append_nil]
    refine List.filter_eq_self.mpr ?_
    intro a _
    simp
  · rw [hstrip2, hcreated1]
    have hfk : (setLevelSubsetCount sqrt d lc pp sc st).particleSets.filter
        (keepPS (jsOrInt lc st.numLevels) (jsOrInt sc st.numSubsets)) =
        (setLevelSubsetCount sqrt d lc pp sc st).particleSets := by
      refine List.filter_eq_self.mpr ?_
      intro ps hps
      exact hkeep1 (rec3 ps) (List.mem_map_of_mem rec3 hps)
    rw [hfk]
    show _ ++ (newParticleSets _ [] _).map stripPS = _
    simp [newParticleSets]
  · exact ⟨_, setLSC_strip sqrt d lc pp sc st⟩

theorem fireSettingsChange_orbit (st : HState) : (fireSettingsChange st).orbit = st.orbit := rfl

theorem fireSettingsChange_numLevels (st : HState) :
    (fireSettingsChange st).numLevels = st.numLevels := rfl

theorem fireSettingsChange_numSubsets (st : HState) :
    (fireSettingsChange st).numSubsets = st.numSubsets := rfl

theorem fireSettingsChange_numPointsSubset (st : HState) :
    (fireSettingsChange st).numPointsSubset = st.numPointsSubset := rfl

theorem generateOrbitData_subsets_length (sqrt : ℚ → ℚ) (p : OrbitParams)
    (sx sy : ℕ → ℚ) (o : OrbitData) :
    (generateOrbitData sqrt p sx sy o).subsets.length = o.subsets.length := by
  simp only [generateOrbitData, List.length_map, genSubsets_length]

theorem filter_notmem_nil {α : Type} [DecidableEq α] (l : List α) :
    l.filter (fun a => decide (a ∉ ([] : List α))) = l :=
  List.filter_eq_self.mpr (fun a _ => by simp)

theorem defaultState_facts (sqrt : ℚ → ℚ) (d : Draws) :
    (defaultState sqrt d).particleSets.map rec3 = tagPairs (allPairs 7 7) 0 ∧
    (defaultState sqrt d).sceneIds = List.range' 0 49 ∧
    (defaultState sqrt d).nextId = 49 ∧
    (defaultState sqrt d).numLevels = 7 ∧
    (defaultState sqrt d).numSubsets = 7 ∧
    (defaultState sqrt d).numPointsSubset = 4000 ∧
    (defaultState sqrt d).orbit.subsets.length = 7 := by
  simp only [defaultState]
  rw [createMissing_eq, filter_notmem_nil]
  refine ⟨?_, ?_, ?_, ?_, ?_, ?_, ?_⟩
  · rw [fireSettingsChange_particleSets]
    show (List.map rec3 (([] : List PSetR) ++ newParticleSets _ (allPairs 7 7) _))
      = tagPairs (allPairs 7 7) 0
    rw [List.nil_append, newParticleSets_map_rec3]
    rfl
  · rw [fireSettingsChange_sceneIds]
    show ([] : List ℕ) ++ List.range' 0 (allPairs 7 7).length = List.range' 0 49
    rw [List.nil_append]
    rfl
  · rw [fireSettingsChange_nextId]
    show 0 + (allPairs 7 7).length = 49
    rfl
  · rfl
  · rfl
  · rfl
  · rw [fireSettingsChange_orbit]
    show (generateOrbitData sqrt (shuffledParams d) d.seedX d.seedY
      { emptyOrbit with subsets := initSubsets (7 : ℤ).toNat (4000 : ℤ).toNat }).subsets.length
      = 7
    rw [generateOrbitData_subsets_length]
    show (initSubsets (7 : ℤ).toNat (4000 : ℤ).toNat).length = 7
    rw [initSubsets, List.length_replicate]
    rfl

theorem changeLevelSubset_eq (sqrt : ℚ → ℚ) (d : Draws) (delta : ℤ) (st : HState) :
    changeLevelSubset sqrt d delta st =
      setLevelSubsetCount sqrt d (some (st.numLevels + delta)) none
        (some (st.numSubsets + delta)) st := rfl

theorem updateOrbit_orbit (sqrt : ℚ → ℚ) (d : Draws) (st : HState) :
    (updateOrbit sqrt d st).orbit =
      generateOrbitData sqrt (shuffledParams d) d.seedX d.seedY st.orbit := rfl

theorem initOrbitS_orbit_subsets (st : HState) :
    (initOrbitS st).orbit.subsets =
      initSubsets st.numSubsets.toNat st.numPointsSubset.toNat := rfl

theorem removeStale_orbit (st : HState) : (removeStale st).orbit = st.orbit := rfl

theorem createNeeded_orbit (st : HState) : (createNeeded st).orbit = st.orbit := by
  rw [createNeeded_eq, createMissing_eq]

theorem map_pairOf_eq (l : List PSetR) :
    l.map pairOf = (l.map rec3).map pairOfRec := by
  rw [List.map_map]
  rfl

theorem changeLevelSubset_default_orbit_len (sqrt : ℚ → ℚ) (d d2 : Draws) :
    (changeLevelSubset sqrt d2 (-1) (defaultState sqrt d)).orbit.subsets.length = 6 := by
  obtain ⟨_, _, _, hl, hs, _, _⟩ := defaultState_facts sqrt d
  rw [changeLevelSubset_eq]
  unfold setLevelSubsetCount
  rw [fireSettingsChange_orbit, createNeeded_orbit, removeStale_orbit, hl, hs]
  unfold regenIfNeeded
  have hcond : ((some ((7 : ℤ) + -1)).isSome || (none : Option ℤ).isSome) = true := rfl
  rw [if_pos hcond, updateOrbit_orbit, generateOrbitData_subsets_length,
    initOrbitS_orbit_subsets, initSubsets, List.length_replicate, applyCounts_numSubsets, hs]
  decide

/-- C1 (amended): from the default configuration (7 levels, 7 subsets,
4000 points per subset), `changeLevelSubset(-1)` leaves exactly one
particle set per (level, subset) with level < 6 and subset < 6 (36
sets), removes the 13 out-of-range sets from the scene, and sets the
counts to 6/6/4000 — but the orbit is *not* left unchanged: because the
call passes a subsetCount, `initOrbit` + `updateOrbit` fire and the
orbit is regenerated with 6 subsets (it had 7). -/
theorem claimC1 (sqrt : ℚ → ℚ) (d d2 : Draws) :
    (changeLevelSubset sqrt d2 (-1) (defaultState sqrt d)).particleSets.map pairOf =
      allPairs 6 6 ∧
    ((defaultState sqrt d).sceneIds.filter
      (fun i => decide
        (i ∉ (changeLevelSubset sqrt d2 (-1) (defaultState sqrt d)).sceneIds))).length = 13 ∧
    (changeLevelSubset sqrt d2 (-1) (defaultState sqrt d)).numLevels = 6 ∧
    (changeLevelSubset sqrt d2 (-1) (defaultState sqrt d)).numSubsets = 6 ∧
    (changeLevelSubset sqrt d2 (-1) (defaultState sqrt d)).numPointsSubset = 4000 ∧
    (changeLevelSubset sqrt d2 (-1) (defaultState sqrt d)).orbit.subsets.length = 6 ∧
    (defaultState sqrt d).orbit.subsets.length = 7 := by
  obtain ⟨hps, hsc, hni, hl, hs, hp, ho⟩ := defaultState_facts sqrt d
  obtain ⟨hi1, hi2, _⟩ := setLSC_ids sqrt d2 (some ((defaultState sqrt d).numLevels + -1))
    none (some ((defaultState sqrt d).numSubsets + -1)) (defaultState sqrt d)
  obtain ⟨hc1, hc2, hc3⟩ := setLSC_counts sqrt d2 (some ((defaultState sqrt d).numLevels + -1))
    none (some ((defaultState sqrt d).numSubsets + -1)) (defaultState sqrt d)
  rw [hl, hs, hps, hni] at hi1
  rw [hl, hs, hps, hni, hsc] at hi2
  rw [hl, hs] at hc1
  rw [hl, hs] at hc2
  rw [hl, hs] at hc3
  refine ⟨?_, ?_, ?_, ?_, ?_, changeLevelSubset_default_orbit_len sqrt d d2, ho⟩
  · rw [changeLevelSubset_eq, map_pairOf_eq, hl, hs, hi1]
    decide
  · rw [changeLevelSubset_eq, hl, hs, hi2, hsc]
    decide
  · rw [changeLevelSubset_eq, hl, hs, hc1]
    decide
  · rw [changeLevelSubset_eq, hl, hs, hc2]
    decide
  · rw [changeLevelSubset_eq, hl, hs, hc3, hp]
    rfl

/-- C1 counterexample: the claim's "leaves the orbit unchanged" is false.
With concrete draws, `changeLevelSubset(-1)` from the default state
replaces the orbit (it is regenerated with 6 subsets instead of 7,
because a subsetCount was passed and the regeneration branch fires). -/
theorem claimC1_cex :
    (changeLevelSubset sqrtZero drawsZero (-1) (defaultState sqrtZero drawsZero)).orbit ≠
      (defaultState sqrtZero drawsZero).orbit := by
  intro h
  have h1 := changeLevelSubset_default_orbit_len sqrtZero drawsZero drawsZero
  have h2 := (defaultState_facts sqrtZero drawsZero).2.2.2.2.2.2
  rw [h, h2] at h1
  exact absurd h1 (by decide)
